import Mathlib

/-
  Verification development for the ttkbootstrap theming engine
  (scottpeterman/ttkbootstrap).

  Shallow embedding of the parts of the code base that the verified
  properties speak about:
    * src/ttkbootstrap/core/style.py   (Style, StylerTTK)
    * src/ttkbootstrap/style/style.py  (Style, second generation)
    * src/ttkbootstrap/style.py        (Style with registered_styles)

  Conventions of the embedding:
    * Python dicts become association lists (`List (String × _)`) with
      `dict.update` semantics (replace value in place, append new keys).
    * `uuid4()` is modelled by a freshness counter threaded through an
      `AssetEnv`; `uuidName n` stands for the n-th fresh identifier.
    * PIL images become an `Img` record that keeps the creation size
      (`canvas`), the current size after `resize`, the background color
    and the list of drawing operations performed on the image.
    * Colors are hex strings such as "#ff0000"; color arithmetic is done
      on exact rationals.
  The module `ttkbootstrap.core.themes` (class `ThemeColors`) is not part
  of the source tree; the few helpers used from it are modelled from the
  spec and marked as such in their doc comments.
-/

namespace Ttkbootstrap

/-- Theme colors record, mirroring the `ThemeColors` attributes that
`core/style.py` reads (`primary` … `danger` plus the auxiliary colors
`bg`, `fg`, `selectbg`, `selectfg`, `border`, `inputfg`, `inputbg`). -/
structure ThemeColors where
  primary : String
  secondary : String
  success : String
  info : String
  warning : String
  danger : String
  bg : String
  fg : String
  selectbg : String
  selectfg : String
  border : String
  inputfg : String
  inputbg : String
  deriving Repr, DecidableEq

/-- Modelled from the spec: the color labels produced by iterating
`theme.colors` (`for color in self.theme.colors`), named in the source's
doc strings as the color labels assigned to the colors property, e.g.
`primary`, `secondary`, `success` (core/style.py line 651). -/
def ThemeColors.labels : List String :=
  ["primary", "secondary", "success", "info", "warning", "danger"]

/-- Modelled from the spec: `ThemeColors.get(color)` looks a color label
up in the theme colors (`self.theme.colors.get(color)` throughout
core/style.py); an unknown label falls back to the given string, which is
how a literal hex color passes through unchanged. -/
def ThemeColors.get (c : ThemeColors) (label : String) : String :=
  if label = "primary" then c.primary
  else if label = "secondary" then c.secondary
  else if label = "success" then c.success
  else if label = "info" then c.info
  else if label = "warning" then c.warning
  else if label = "danger" then c.danger
  else if label = "bg" then c.bg
  else if label = "fg" then c.fg
  else if label = "selectbg" then c.selectbg
  else if label = "selectfg" then c.selectfg
  else if label = "border" then c.border
  else if label = "inputfg" then c.inputfg
  else if label = "inputbg" then c.inputbg
  else label

/-- Modelled from the spec: `ThemeColors.normalize(color, fallback,
colors)` (used by every static style method in core/style.py) returns the
fallback when no color was supplied and otherwise resolves the color
label against the theme colors. -/
def ThemeColors.normalize (value : Option String) (fallback : String)
    (c : ThemeColors) : String :=
  match value with
  | none => fallback
  | some v => c.get v

/-- Theme definition as read from the themes file: a name, a type
("light" or "dark"), a font and the color set. -/
structure ThemeDefinition where
  name : String
  themeType : String
  font : String
  colors : ThemeColors
  deriving Repr, DecidableEq

/-! ### Color arithmetic (colorsys / ThemeColors color math)

`colorsys.rgb_to_hsv` and `colorsys.hsv_to_rgb` are the Python standard
library conversions used by `core/style.py`; they are embedded as exact
rational arithmetic.  `hex_to_rgb`, `rgb_to_hex` and `update_hsv` live in
the absent `ttkbootstrap.core.themes` module and are modelled from the
spec (an HSV color adjustment applied to a hex color). -/

/-- Value of one hexadecimal digit (0 for characters that are not hex
digits, matching `int(_, 16)` only on well-formed input). -/
def hexDigitVal (ch : Char) : ℕ :=
  if ch = '0' then 0 else if ch = '1' then 1 else if ch = '2' then 2
  else if ch = '3' then 3 else if ch = '4' then 4 else if ch = '5' then 5
  else if ch = '6' then 6 else if ch = '7' then 7 else if ch = '8' then 8
  else if ch = '9' then 9 else if ch = 'a' ∨ ch = 'A' then 10
  else if ch = 'b' ∨ ch = 'B' then 11 else if ch = 'c' ∨ ch = 'C' then 12
  else if ch = 'd' ∨ ch = 'D' then 13 else if ch = 'e' ∨ ch = 'E' then 14
  else if ch = 'f' ∨ ch = 'F' then 15 else 0

/-- Parse the two hex digits of `s` starting at position `i` (0-based). -/
def hexPairVal (s : String) (i : ℕ) : ℕ :=
  let cs := s.toList
  16 * hexDigitVal (cs.getD i '0') + hexDigitVal (cs.getD (i + 1) '0')

/-- Modelled from the spec: `ThemeColors.hex_to_rgb` converts a
"#rrggbb" hex color to an RGB triple scaled into the unit interval. -/
def ThemeColors.hex_to_rgb (color : String) : ℚ × ℚ × ℚ :=
  ((hexPairVal color 1 : ℚ) / 255,
   (hexPairVal color 3 : ℚ) / 255,
   (hexPairVal color 5 : ℚ) / 255)

/-- `colorsys.rgb_to_hsv` from the Python standard library, on exact
rationals; the third component is the HSV value (brightness). -/
def rgb_to_hsv (r g b : ℚ) : ℚ × ℚ × ℚ :=
  let maxc := max r (max g b)
  let minc := min r (min g b)
  let v := maxc
  if minc = maxc then (0, 0, v)
  else
    let s := (maxc - minc) / maxc
    let rc := (maxc - r) / (maxc - minc)
    let gc := (maxc - g) / (maxc - minc)
    let bc := (maxc - b) / (maxc - minc)
    let h :=
      if r = maxc then bc - gc
      else if g = maxc then 2 + rc - bc
      else 4 + gc - rc
    (h / 6 - ⌊h / 6⌋, s, v)

/-- `colorsys.hsv_to_rgb` from the Python standard library, on exact
rationals. -/
def hsv_to_rgb (h s v : ℚ) : ℚ × ℚ × ℚ :=
  if s = 0 then (v, v, v)
  else
    let i : ℤ := ⌊h * 6⌋
    let f : ℚ := h * 6 - (i : ℚ)
    let p := v * (1 - s)
    let q := v * (1 - s * f)
    let t := v * (1 - s * (1 - f))
    let im : ℤ := i % 6
    if im = 0 then (v, t, p)
    else if im = 1 then (q, v, p)
    else if im = 2 then (p, v, t)
    else if im = 3 then (p, q, v)
    else if im = 4 then (t, p, v)
    else (v, p, q)

/-- Clamp a rational into the unit interval. -/
def clamp01 (x : ℚ) : ℚ := min 1 (max 0 x)

/-- Two lowercase hex digits for a byte value. -/
def byteToHex (n : ℕ) : String :=
  let dig := fun (d : ℕ) =>
    (["0", "1", "2", "3", "4", "5", "6", "7", "8", "9",
      "a", "b", "c", "d", "e", "f"].getD d "0")
  dig ((n / 16) % 16) ++ dig (n % 16)

/-- Modelled from the spec: `ThemeColors.rgb_to_hex` renders a unit
interval RGB triple back to a "#rrggbb" string (rounding to 0..255). -/
def ThemeColors.rgb_to_hex (r g b : ℚ) : String :=
  "#" ++ byteToHex (Int.toNat (round (r * 255)))
      ++ byteToHex (Int.toNat (round (g * 255)))
      ++ byteToHex (Int.toNat (round (b * 255)))

/-- Modelled from the spec: `ThemeColors.update_hsv(color, hd, sd, vd)`
is the HSV color adjustment named by the spec: the hex color is taken to
HSV, each component is shifted by its delta (clamped into the unit
interval) and the result is rendered back to hex. -/
def ThemeColors.update_hsv (color : String) (hd sd vd : ℚ) : String :=
  let rgb := ThemeColors.hex_to_rgb color
  let hsv := rgb_to_hsv rgb.1 rgb.2.1 rgb.2.2
  let rgb2 := hsv_to_rgb (clamp01 (hsv.1 + hd)) (clamp01 (hsv.2.1 + sd))
      (clamp01 (hsv.2.2 + vd))
  ThemeColors.rgb_to_hex rgb2.1 rgb2.2.1 rgb2.2.2

/-! ### PIL images

An `Img` records everything the code does to a PIL image: the mode and
size given to `Image.new`, the optional background fill, the drawing
operations, a final `resize` (the `canvas` field keeps the creation
size, `size` the current one) and the `ROTATE_180` transpose used for
the toggle-on image. -/

/-- One PIL `ImageDraw` operation, with the arguments the source passes. -/
inductive DrawOp where
  | rounded_rectangle (box : List ℤ) (radius : ℚ) (outline : Option String)
      (width : Option ℕ) (fill : Option String)
  | ellipse (box : List ℤ) (outline : Option String) (width : Option ℕ)
      (fill : Option String)
  | polygon (points : List (ℤ × ℤ)) (fill : String)
  | rectangle (box : List ℤ) (fill : String)
  | text (xy : ℤ × ℤ) (content : String) (fontSize : ℕ) (fill : String)
  deriving Repr, DecidableEq

/-- Shallow image value: creation mode/size, current size, optional
background color, drawing operations, and whether `ROTATE_180` was
applied. -/
structure Img where
  mode : String
  canvas : ℕ × ℕ
  size : ℕ × ℕ
  background : Option String
  ops : List DrawOp
  rotated : Bool
  deriving Repr, DecidableEq

/-- `Image.new(mode, size, background)`. -/
def Img.new (mode : String) (sz : ℕ × ℕ) (bg : Option String := none) : Img :=
  ⟨mode, sz, sz, bg, [], false⟩

/-- `ImageDraw.Draw(im); draw.<op>(...)`. -/
def Img.draw (im : Img) (op : DrawOp) : Img :=
  { im with ops := im.ops ++ [op] }

/-- `im.resize(sz, Image.LANCZOS)`: the current size changes, the
recorded creation size does not. -/
def Img.resize (im : Img) (sz : ℕ × ℕ) : Img :=
  { im with size := sz }

/-- `im.transpose(Image.ROTATE_180)`. -/
def Img.rotate180 (im : Img) : Img :=
  { im with rotated := true }

/-! ### The settings dictionary

`StylerTTK.settings` maps style and element names to their definitions.
The embedding records, for every entry, the components the verified
properties quantify over: whether the entry carries a `configure`
block, the pseudo-state specs of its `map` block (option name paired
with the state-spec strings, in source order; the mapped values are
colors and are not needed by any property), its layout tree, and its
`element create` directive (images are referenced by their key in
`theme_images`). -/

/-- Nested layout tuple: an element name and its child layouts. -/
inductive LayoutT where
  | node (element : String) (children : List LayoutT)
  deriving Repr

/-- Element names referenced by a layout tree, in preorder. -/
def LayoutT.refs : LayoutT → List String
  | .node e cs => e :: cs.attach.flatMap (fun c => LayoutT.refs c.1)
decreasing_by
  have := List.sizeOf_lt_of_mem c.2
  simp only [LayoutT.node.sizeOf_spec]
  omega

/-- Element names referenced by a layout (a list of layout tuples). -/
def layoutRefs (ls : List LayoutT) : List String :=
  ls.flatMap LayoutT.refs

theorem attach_flatMap_eq {α β : Type} (cs : List α) (f : α → List β) :
    cs.attach.flatMap (fun c => f c.1) = cs.flatMap f := by
  induction cs with
  | nil => rfl
  | cons a rest ih =>
      rw [List.attach_cons, List.flatMap_cons, List.flatMap_map]
      simp only [List.flatMap_cons]
      congr 1

@[simp]
theorem LayoutT.refs_node (e : String) (cs : List LayoutT) :
    (LayoutT.node e cs).refs = e :: cs.flatMap LayoutT.refs := by
  rw [LayoutT.refs]
  rw [attach_flatMap_eq]

/-- An `element create` directive: either `("from", theme)` or
`("image", im, (state, im'), ... , opts)`, with images referenced by
their `theme_images` key. -/
inductive ElemCreate where
  | fromTheme (src : String)
  | image (primary : String) (states : List (String × String))
  deriving Repr

/-- One settings entry (the value of one key of the settings dict). -/
structure StyleSpec where
  configured : Bool := false
  layout : List LayoutT := []
  stateMap : List (String × List String) := []
  create : Option ElemCreate := none

/-- The flat settings dictionary: an association list with Python
`dict.update` semantics. -/
abbrev Settings := List (String × StyleSpec)

/-- One `dict.update` step for a single key: replace the value if the
key is present, append the pair otherwise. -/
def updateOne (s : Settings) (kv : String × StyleSpec) : Settings :=
  if s.any (fun p => p.1 = kv.1) then
    s.map (fun p => if p.1 = kv.1 then kv else p)
  else s ++ [kv]

/-- `settings.update(new)`: merge the new pairs left to right. -/
def dictUpdate : Settings → List (String × StyleSpec) → Settings
  | s, [] => s
  | s, kv :: rest => dictUpdate (updateOne s kv) rest

/-- Keys of a settings dictionary. -/
def keysOf (s : Settings) : List String := s.map Prod.fst

/-! ### Asset identity

`uuid4()` calls are modelled by a freshness counter: the n-th call of a
run yields `uuidName n`.  `AssetEnv` carries the global
`StylerTTK.theme_images` store together with the counter. -/

/-- The n-th fresh identifier produced by `uuid4()`. -/
def uuidName (n : ℕ) : String := "uuid-" ++ toString n

/-- Global asset state: the `theme_images` store (keyed by strings,
uuid-keyed entries use `uuidName`) and the freshness counter. -/
structure AssetEnv where
  images : List (String × Img)
  fresh : ℕ
  deriving Repr

namespace StylerTTK

/-! ### Asset creators (core/style.py) -/

/-- `StylerTTK._create_striped_progressbar_image` (core/style.py
647-679): picks the stripe value delta from the primary color's HSV
brightness, derives the secondary stripe color with `update_hsv`,
draws two polygon stripes on a 100x100 canvas and resizes to 22x22. -/
def _create_striped_progressbar_image (theme : ThemeDefinition)
    (colorname : String) : List (String × Img) :=
  let bar_primary := theme.colors.get colorname
  let rgb := ThemeColors.hex_to_rgb bar_primary
  let brightness := (rgb_to_hsv rgb.1 rgb.2.1 rgb.2.2).2.2
  let value_delta : ℚ :=
    if brightness < 4/10 then 3/10
    else if brightness > 8/10 then 0
    else 1/10
  let bar_secondary := ThemeColors.update_hsv bar_primary 0 (-(2/10)) value_delta
  let h_im := Img.new "RGBA" (100, 100) (some bar_secondary)
  let h_im := h_im.draw
    (.polygon [(0, 0), (48, 0), (100, 52), (100, 100), (100, 100)] bar_primary)
  let h_im := h_im.draw (.polygon [(0, 52), (48, 100), (0, 100)] bar_primary)
  let horizontal_img := h_im.resize (22, 22)
  [(colorname ++ "_striped_hpbar", horizontal_img)]

/-- `StylerTTK._create_roundtoggle_image` (core/style.py 1699-1744):
the three toggle images are drawn on a 226x130 canvas and resized to
24x15; the on image is additionally rotated by 180 degrees. -/
def _create_roundtoggle_image (theme : ThemeDefinition)
    (colorname : String) : List (String × Img) :=
  let prime_color := theme.colors.get colorname
  let on_border := prime_color
  let on_indicator := theme.colors.selectfg
  let on_fill := prime_color
  let off_border :=
    if theme.themeType = "light" then theme.colors.selectbg else theme.colors.inputbg
  let off_indicator :=
    if theme.themeType = "light" then theme.colors.selectbg else theme.colors.inputbg
  let off_fill := theme.colors.bg
  let disabled_fg :=
    if theme.themeType = "light" then
      ThemeColors.update_hsv theme.colors.inputbg 0 0 (-(2/10))
    else ThemeColors.update_hsv theme.colors.inputbg 0 0 (-(3/10))
  let toggle_off := (Img.new "RGBA" (226, 130)).draw
    (.rounded_rectangle [1, 1, 225, 129] (128/2) (some off_border) (some 6)
      (some off_fill))
  let toggle_off := toggle_off.draw
    (.ellipse [20, 18, 112, 110] none none (some off_indicator))
  let toggle_on := (Img.new "RGBA" (226, 130)).draw
    (.rounded_rectangle [1, 1, 225, 129] (128/2) (some on_border) (some 6)
      (some on_fill))
  let toggle_on := toggle_on.draw
    (.ellipse [20, 18, 112, 110] none none (some on_indicator))
  let toggle_on := toggle_on.rotate180
  let toggle_disabled := (Img.new "RGBA" (226, 130)).draw
    (.rounded_rectangle [1, 1, 225, 129] (128/2) (some disabled_fg) (some 6) none)
  let toggle_disabled := toggle_disabled.draw
    (.ellipse [20, 18, 112, 110] none none (some disabled_fg))
  [(colorname ++ "_roundtoggle_on", toggle_on.resize (24, 15)),
   (colorname ++ "_roundtoggle_off", toggle_off.resize (24, 15)),
   (colorname ++ "_roundtoggle_disabled", toggle_disabled.resize (24, 15))]

/-- `StylerTTK._create_radiobutton_images` (core/style.py 2449-2496):
the three radio indicator images are drawn at 134x134 and resized to
14x14. -/
def _create_radiobutton_images (theme : ThemeDefinition)
    (colorname : String) : List (String × Img) :=
  let prime_color := theme.colors.get colorname
  let light := theme.themeType = "light"
  let on_border := if light then prime_color else theme.colors.selectbg
  let on_indicator := if light then theme.colors.selectfg else prime_color
  let on_fill := if light then prime_color else theme.colors.selectfg
  let off_border := theme.colors.selectbg
  let off_fill := if light then theme.colors.inputbg else theme.colors.selectfg
  let disabled_fg :=
    if light then ThemeColors.update_hsv theme.colors.inputbg 0 0 (-(2/10))
    else ThemeColors.update_hsv theme.colors.inputbg 0 0 (-(3/10))
  let radio_off := (Img.new "RGBA" (134, 134)).draw
    (.ellipse [2, 2, 132, 132] (some off_border) (some 3) (some off_fill))
  let radio_on := (Img.new "RGBA" (134, 134)).draw
    (.ellipse [2, 2, 132, 132] (some on_border) (some (if light then 12 else 6))
      (some on_fill))
  let radio_on :=
    if light then radio_on.draw (.ellipse [40, 40, 94, 94] none none (some on_indicator))
    else radio_on.draw (.ellipse [30, 30, 104, 104] none none (some on_indicator))
  let radio_disabled := (Img.new "RGBA" (134, 134)).draw
    (.ellipse [2, 2, 132, 132] (some disabled_fg) (some 3) (some off_fill))
  [(colorname ++ "_radio_off", radio_off.resize (14, 14)),
   (colorname ++ "_radio_on", radio_on.resize (14, 14)),
   (colorname ++ "_radio_disabled", radio_disabled.resize (14, 14))]

/-- `StylerTTK.style_checkbutton_images` (core/style.py 2936-2979):
the three checkbutton indicator images are drawn at 134x134 (the on
image gets a checkmark glyph) and resized to 14x14, stored under the
fresh element id. -/
def style_checkbutton_images (theme : ThemeDefinition)
    (indicatorcolor : String) (element_id : String) : List (String × Img) :=
  let outline := theme.colors.selectbg
  let light := theme.themeType = "light"
  let fill := if light then theme.colors.inputbg else theme.colors.selectfg
  let disabled_fg :=
    if light then ThemeColors.update_hsv theme.colors.inputbg 0 0 (2/10)
    else ThemeColors.update_hsv theme.colors.inputbg 0 0 (3/10)
  let disabled_bg := if light then theme.colors.inputbg else disabled_fg
  let cb_off := (Img.new "RGBA" (134, 134)).draw
    (.rounded_rectangle [2, 2, 132, 132] 16 (some outline) (some 3) (some fill))
  let cb_on := (Img.new "RGBA" (134, 134)).draw
    (.rounded_rectangle [2, 2, 132, 132] 16 (some indicatorcolor) (some 3)
      (some indicatorcolor))
  let cb_on := cb_on.draw (.text (20, 8) "✓" 130 theme.colors.selectfg)
  let cb_disabled := (Img.new "RGBA" (134, 134)).draw
    (.rounded_rectangle [2, 2, 132, 132] 16 (some disabled_fg) (some 3)
      (some disabled_bg))
  [(element_id ++ "_cb_off", cb_off.resize (14, 14)),
   (element_id ++ "_cb_on", cb_on.resize (14, 14)),
   (element_id ++ "_cb_disabled", cb_disabled.resize (14, 14))]

/-- `StylerTTK.style_sizegrip_images` (core/style.py 3425-3443): a
14x14 image with six grip rectangles. -/
def style_sizegrip_images (color : String) : Img :=
  (((((((Img.new "RGBA" (14, 14)).draw
    (.rectangle [9, 3, 10, 4] color)).draw
    (.rectangle [6, 6, 7, 7] color)).draw
    (.rectangle [9, 6, 10, 7] color)).draw
    (.rectangle [3, 9, 4, 10] color)).draw
    (.rectangle [6, 9, 7, 10] color)).draw
    (.rectangle [9, 9, 10, 10] color))

/-- Model of Python `str.lower()` (used for the `orient` argument). -/
def strToLower (s : String) : String := String.mk (s.data.map Char.toLower)

/-! ### Static style methods (core/style.py)

These are the asset-producing style methods: each call draws fresh
bitmaps, stores them in `theme_images` under a fresh `uuid4` identity
and returns a settings fragment wiring the new element into the style's
layout. -/

/-- `StylerTTK.style_separator` (core/style.py 524-573): creates a
horizontal and a vertical separator image under two fresh uuid
identities, stores both, and returns the element/layout pair for the
requested orientation. -/
def style_separator (theme : ThemeDefinition) (background : Option String)
    (orient : String) (style : String) (env : AssetEnv) :
    List (String × StyleSpec) × AssetEnv :=
  let bg :=
    if theme.themeType = "light" then
      ThemeColors.normalize background theme.colors.border theme.colors
    else ThemeColors.normalize background theme.colors.selectbg theme.colors
  let hs_image_id := uuidName env.fresh
  let hs_im := Img.new "RGB" (40, 1) (some bg)
  let vs_image_id := uuidName (env.fresh + 1)
  let vs_im := Img.new "RGB" (1, 40) (some bg)
  let env' : AssetEnv :=
    ⟨env.images ++ [(hs_image_id, hs_im), (vs_image_id, vs_im)], env.fresh + 2⟩
  let pairs :=
    if strToLower orient = "horizontal" then
      [(hs_image_id ++ ".Horizontal.Separator.separator",
        { create := some (.image hs_image_id []) }),
       (style,
        { layout := [.node (hs_image_id ++ ".Horizontal.Separator.separator") []] })]
    else
      [(vs_image_id ++ ".Vertical.Separator.separator",
        { create := some (.image vs_image_id []) }),
       (style,
        { layout := [.node (vs_image_id ++ ".Vertical.Separator.separator") []] })]
  (pairs, env')

/-- The `element create` entry of an image-based checkbutton style:
the on image with state-mapped disabled and off images, all stored
under the fresh element id. -/
def checkbuttonIndicatorSpec (element_id : String) : StyleSpec :=
  { create := some (.image (element_id ++ "_cb_on")
      [("disabled", element_id ++ "_cb_disabled"),
       ("!selected", element_id ++ "_cb_off")]) }

/-- The style entry of an image-based checkbutton style: its layout
replaces the default indicator with the fresh image element. -/
def checkbuttonStyleSpec (element_id : String) : StyleSpec :=
  { configured := true
    layout :=
      [.node "Checkbutton.padding"
        [.node (element_id ++ ".Checkbutton.indicator") [],
         .node "Checkbutton.focus" [.node "Checkbutton.label" []]]]
    stateMap := [("foreground", ["disabled", "active"])] }

/-- `StylerTTK.style_checkbutton` (core/style.py 2863-2933): creates
the three indicator images under a fresh uuid element id and returns
the element-create entry together with the style whose layout uses that
indicator element. -/
def style_checkbutton (theme : ThemeDefinition) (background : Option String)
    (foreground : Option String) (indicatorcolor : Option String)
    (style : String) (env : AssetEnv) :
    List (String × StyleSpec) × AssetEnv :=
  let _bg := ThemeColors.normalize background theme.colors.bg theme.colors
  let _fg := ThemeColors.normalize foreground theme.colors.fg theme.colors
  let indicator := ThemeColors.normalize indicatorcolor theme.colors.primary theme.colors
  let element_id := uuidName env.fresh
  let imgs := style_checkbutton_images theme indicator element_id
  let env' : AssetEnv := ⟨env.images ++ imgs, env.fresh + 1⟩
  let pairs :=
    [(element_id ++ ".Checkbutton.indicator", checkbuttonIndicatorSpec element_id),
     (style, checkbuttonStyleSpec element_id)]
  (pairs, env')

/-- `StylerTTK.style_sizegrip` (core/style.py 3390-3423): creates the
grip image under a fresh uuid element id, stores it, and returns the
style (whose layout uses the new sizegrip element) together with the
element-create entry. -/
def style_sizegrip (theme : ThemeDefinition) (background : Option String)
    (foreground : Option String) (style : String) (env : AssetEnv) :
    List (String × StyleSpec) × AssetEnv :=
  let _bg := ThemeColors.normalize background theme.colors.bg theme.colors
  let fg :=
    if theme.themeType = "light" then
      ThemeColors.normalize foreground theme.colors.border theme.colors
    else ThemeColors.normalize foreground theme.colors.inputbg theme.colors
  let element_id := uuidName env.fresh
  let env' : AssetEnv :=
    ⟨env.images ++ [(element_id, style_sizegrip_images fg)], env.fresh + 1⟩
  let pairs :=
    [(style,
      { configured := true
        layout := [.node (element_id ++ ".Sizegrip.sizegrip") []] }),
     (element_id ++ ".Sizegrip.sizegrip",
      { create := some (.image element_id []) })]
  (pairs, env')

/-- `StylerTTK.style_solid_buttons` (core/style.py 1327-1399). -/
def style_solid_buttons (theme : ThemeDefinition) (background : Option String)
    (style : String) : List (String × StyleSpec) :=
  let _bg := ThemeColors.normalize background theme.colors.primary theme.colors
  [(style,
    { configured := true
      stateMap :=
        [("foreground", ["disabled"]),
         ("background", ["disabled", "pressed !disabled", "hover !disabled"]),
         ("bordercolor", ["disabled", "hover !disabled"]),
         ("darkcolor", ["disabled", "pressed !disabled", "hover !disabled"]),
         ("lightcolor", ["disabled", "pressed !disabled", "hover !disabled"])] })]

/-- `StylerTTK.style_outline_buttons` (core/style.py 1402-1471). -/
def style_outline_buttons (theme : ThemeDefinition) (foreground : Option String)
    (style : String) : List (String × StyleSpec) :=
  let _fg := ThemeColors.normalize foreground theme.colors.primary theme.colors
  [(style,
    { configured := true
      stateMap :=
        [("foreground", ["disabled", "pressed", "hover"]),
         ("background", ["pressed !disabled", "hover !disabled"]),
         ("bordercolor", ["pressed !disabled", "hover !disabled"]),
         ("darkcolor", ["pressed !disabled", "hover !disabled"]),
         ("lightcolor", ["pressed !disabled", "hover !disabled"])] })]

/-- `StylerTTK.style_link_buttons` (core/style.py 1474-1530). -/
def style_link_buttons (theme : ThemeDefinition) (foreground : Option String)
    (style : String) : List (String × StyleSpec) :=
  let _fg := ThemeColors.normalize foreground theme.colors.fg theme.colors
  [(style,
    { configured := true
      stateMap :=
        [("foreground", ["disabled", "pressed !disabled", "hover !disabled"]),
         ("shiftrelief", ["pressed !disabled"]),
         ("background", []),
         ("bordercolor", []),
         ("darkcolor", []),
         ("lightcolor", [])] })]

/-! ### Private widget style methods (core/style.py)

Each `_style_<widget>` method merges one or more fragments into
`self.settings`; the fragments are given here as pair lists in source
order (base entries first, then the per-color variants produced by the
`for color in self.theme.colors` loop).  Entries record the components
the verified properties quantify over: `configure` presence, `element
create` directives and the full pseudo-state specs of every `map`
block.  Layout trees are recorded for the image-based indicator styles
the properties inspect (separator, sizegrip, checkbutton, round toggle,
radiobutton); other entries keep the default empty layout. -/

/-- Shorthand for a settings entry that carries nothing the verified
properties quantify over (a pure layout entry). -/
def plainSpec : StyleSpec := { configured := false }

/-- Shorthand for an `("element create", ("from", theme))` entry. -/
def ecFrom (srcTheme : String) : StyleSpec :=
  { create := some (.fromTheme srcTheme) }

/-- `StylerTTK._style_defaults` (core/style.py 380-403). -/
def _style_defaults_pairs (_d : ThemeDefinition) : List (String × StyleSpec) :=
  [(".", { configured := true })]

/-- `StylerTTK._style_combobox` (core/style.py 405-522). -/
def _style_combobox_pairs (d : ThemeDefinition) : List (String × StyleSpec) :=
  (if d.themeType = "dark" then [("combo.Spinbox.field", ecFrom "default")] else [])
  ++ [("Combobox.downarrow", ecFrom "default"),
      ("Combobox.padding", ecFrom "clam"),
      ("Combobox.textarea", ecFrom "clam"),
      ("TCombobox",
       { configured := true
         stateMap :=
          [("foreground", ["disabled"]),
           ("bordercolor", ["focus !disabled", "hover !disabled"]),
           ("lightcolor", ["focus !disabled", "hover !disabled"]),
           ("darkcolor", ["focus !disabled", "hover !disabled"]),
           ("arrowcolor",
            ["disabled", "pressed !disabled", "focus !disabled", "hover !disabled"])] })]
  ++ ThemeColors.labels.flatMap (fun c =>
      [(c ++ ".TCombobox",
        { stateMap :=
           [("foreground", ["disabled"]),
            ("bordercolor", ["focus !disabled", "hover !disabled"]),
            ("lightcolor", ["focus !disabled", "pressed !disabled"]),
            ("darkcolor", ["focus !disabled", "pressed !disabled"]),
            ("arrowcolor",
             ["disabled", "pressed !disabled", "focus !disabled", "hover !disabled"])] })])

/-- `StylerTTK._style_labelframe` (core/style.py 2809-2861). -/
def _style_labelframe_pairs (_d : ThemeDefinition) : List (String × StyleSpec) :=
  [("Labelframe.Label", ecFrom "clam"),
   ("Label.fill", ecFrom "clam"),
   ("Label.text", ecFrom "clam"),
   ("TLabelframe.Label", { configured := true }),
   ("TLabelframe", { configured := true })]
  ++ ThemeColors.labels.flatMap (fun c =>
      [(c ++ ".TLabelframe", { configured := true }),
       (c ++ ".TLabelframe.Label", { configured := true })])

/-- `StylerTTK._style_spinbox` (core/style.py 1111-1252). -/
def _style_spinbox_pairs (d : ThemeDefinition) : List (String × StyleSpec) :=
  (if d.themeType = "dark" then [("custom.Spinbox.field", ecFrom "default")] else [])
  ++ [("Spinbox.uparrow", ecFrom "default"),
      ("Spinbox.downarrow", ecFrom "default"),
      ("TSpinbox",
       { configured := true
         stateMap :=
          [("foreground", ["disabled"]),
           ("bordercolor", ["focus !disabled", "hover !disabled"]),
           ("lightcolor", ["focus !disabled", "hover !disabled"]),
           ("darkcolor", ["focus !disabled", "hover !disabled"]),
           ("arrowcolor",
            ["disabled !disabled", "pressed !disabled", "focus !disabled",
             "hover !disabled"])] })]
  ++ ThemeColors.labels.flatMap (fun c =>
      [(c ++ ".TSpinbox",
        { stateMap :=
           [("foreground", ["disabled"]),
            ("bordercolor", ["focus !disabled", "hover !disabled"]),
            ("arrowcolor", ["disabled !disabled", "pressed !disabled", "hover !disabled"]),
            ("lightcolor", ["focus !disabled"]),
            ("darkcolor", ["focus !disabled"])] })])

/-- `StylerTTK._style_scale` (core/style.py 734-875): settings
fragment; the slider and trough images live in `theme_images`. -/
def _style_scale_pairs (_d : ThemeDefinition) : List (String × StyleSpec) :=
  [("Horizontal.TScale", plainSpec),
   ("Vertical.TScale", plainSpec),
   ("Horizontal.Scale.track", { create := some (.image "htrough" []) }),
   ("Vertical.Scale.track", { create := some (.image "vtrough" []) }),
   ("Scale.slider",
    { create := some (.image "primary_regular"
       [("disabled", "primary_disabled"),
        ("pressed !disabled", "primary_pressed"),
        ("hover !disabled", "primary_hover")]) })]
  ++ ThemeColors.labels.flatMap (fun c =>
      [(c ++ ".Horizontal.TScale", plainSpec),
       (c ++ ".Vertical.TScale", plainSpec),
       (c ++ ".Scale.slider",
        { create := some (.image (c ++ "_regular")
           [("disabled", "primary_disabled"),
            ("pressed", c ++ "_pressed"),
            ("hover", c ++ "_hover")]) })])

/-- `StylerTTK._style_scrollbar` (core/style.py 1020-1109). -/
def _style_scrollbar_pairs (_d : ThemeDefinition) : List (String × StyleSpec) :=
  [("Vertical.Scrollbar.trough", ecFrom "alt"),
   ("Vertical.Scrollbar.thumb", ecFrom "alt"),
   ("Vertical.Scrollbar.uparrow", { create := some (.image "vsup" []) }),
   ("Vertical.Scrollbar.downarrow", { create := some (.image "vsdown" []) }),
   ("Horizontal.Scrollbar.trough", ecFrom "alt"),
   ("Horizontal.Scrollbar.thumb", ecFrom "alt"),
   ("Horizontal.Scrollbar.leftarrow", { create := some (.image "hsleft" []) }),
   ("Horizontal.Scrollbar.rightarrow", { create := some (.image "hsright" []) }),
   ("TScrollbar",
    { configured := true
      stateMap := [("background", ["pressed", "active"])] })]

/-- `StylerTTK._style_exit_button` (core/style.py 2680-2738). -/
def _style_exit_button_pairs (_d : ThemeDefinition) : List (String × StyleSpec) :=
  [("exit.TButton",
    { configured := true
      stateMap := [("background", ["disabled", "pressed !disabled", "hover !disabled"])] })]
  ++ ThemeColors.labels.flatMap (fun c =>
      [("exit." ++ c ++ ".TButton",
        { configured := true
          stateMap :=
            [("background", ["disabled", "pressed !disabled", "hover !disabled"])] })])

/-- `StylerTTK._style_frame` (core/style.py 1315-1325). -/
def _style_frame_pairs (_d : ThemeDefinition) : List (String × StyleSpec) :=
  [("TFrame", { configured := true })]
  ++ ThemeColors.labels.flatMap (fun c => [(c ++ ".TFrame", { configured := true })])

/-- `StylerTTK._style_calendar` (core/style.py 2498-2678). -/
def _style_calendar_pairs (_d : ThemeDefinition) : List (String × StyleSpec) :=
  [("TCalendar",
    { configured := true
      stateMap :=
       [("foreground",
         ["disabled", "pressed !disabled", "selected !disabled", "hover !disabled"]),
        ("background",
         ["pressed !disabled", "selected !disabled", "hover !disabled"]),
        ("bordercolor",
         ["disabled", "pressed !disabled", "selected !disabled", "hover !disabled"]),
        ("darkcolor", ["pressed !disabled", "selected !disabled", "hover !disabled"]),
        ("lightcolor", ["pressed !disabled", "selected !disabled", "hover !disabled"])] }),
   ("chevron.TButton", { configured := true })]
  ++ ThemeColors.labels.flatMap (fun c =>
      [(c ++ ".TCalendar",
        { configured := true
          stateMap :=
           [("foreground",
             ["disabled", "pressed !disabled", "selected !disabled", "hover !disabled"]),
            ("background",
             ["pressed !disabled", "selected !disabled", "hover !disabled"]),
            ("bordercolor",
             ["disabled", "pressed !disabled", "selected !disabled", "hover !disabled"]),
            ("darkcolor", ["pressed !disabled", "selected !disabled", "hover !disabled"]),
            ("lightcolor",
             ["pressed !disabled", "selected !disabled", "hover !disabled"])] }),
       ("chevron." ++ c ++ ".TButton", { configured := true })])

/-- `StylerTTK._style_entry` (core/style.py 2262-2352). -/
def _style_entry_pairs (d : ThemeDefinition) : List (String × StyleSpec) :=
  (if d.themeType = "dark" then [("Entry.field", ecFrom "default")] else [])
  ++ [("TEntry",
       { configured := true
         stateMap :=
          [("foreground", ["disabled"]),
           ("bordercolor", ["focus !disabled", "hover !disabled"]),
           ("lightcolor", ["focus !disabled", "hover !disabled"]),
           ("darkcolor", ["focus !disabled", "hover !disabled"])] })]
  ++ ThemeColors.labels.flatMap (fun c =>
      [(c ++ ".TEntry",
        { stateMap :=
           [("foreground", ["disabled"]),
            ("bordercolor", ["focus !disabled", "hover !disabled"]),
            ("lightcolor", ["focus !disabled", "hover !disabled"]),
            ("darkcolor", ["focus !disabled", "hover !disabled"])] })])

/-- `StylerTTK._style_label` (core/style.py 2772-2807). -/
def _style_label_pairs (_d : ThemeDefinition) : List (String × StyleSpec) :=
  [("TLabel", { configured := true }),
   ("Inverse.TLabel", { configured := true })]
  ++ ThemeColors.labels.flatMap (fun c =>
      [(c ++ ".TLabel", { configured := true }),
       (c ++ ".Inverse.TLabel", { configured := true }),
       (c ++ ".Invert.TLabel", { configured := true })])

/-- `StylerTTK._style_meter` (core/style.py 2740-2770). -/
def _style_meter_pairs (_d : ThemeDefinition) : List (String × StyleSpec) :=
  [("TMeter", { configured := true })]
  ++ ThemeColors.labels.flatMap (fun c => [(c ++ ".TMeter", { configured := true })])

/-- `StylerTTK._style_notebook` (core/style.py 3310-3357). -/
def _style_notebook_pairs (_d : ThemeDefinition) : List (String × StyleSpec) :=
  [("TNotebook", { configured := true }),
   ("TNotebook.Tab",
    { configured := true
      stateMap :=
       [("background", ["!selected"]),
        ("lightcolor", ["!selected"]),
        ("darkcolor", ["!selected"]),
        ("bordercolor", ["!selected"]),
        ("foreground", ["!selected"])] })]

/-- `StylerTTK._style_panedwindow` (core/style.py 3359-3388). -/
def _style_panedwindow_pairs (_d : ThemeDefinition) : List (String × StyleSpec) :=
  [("TPanedwindow", { configured := true }),
   ("Sash", { configured := true })]

/-- `StylerTTK._style_progressbar` (core/style.py 681-716). -/
def _style_progressbar_pairs (_d : ThemeDefinition) : List (String × StyleSpec) :=
  [("Progressbar.trough", ecFrom "clam"),
   ("Progressbar.pbar", ecFrom "default"),
   ("TProgressbar", { configured := true })]
  ++ ThemeColors.labels.flatMap (fun c =>
      [(c ++ ".Horizontal.TProgressbar", { configured := true }),
       (c ++ ".Vertical.TProgressbar", { configured := true })])

/-- `StylerTTK._style_striped_progressbar` (core/style.py 575-645): the
pbar element of each variant is created from the striped image stored
under the corresponding `theme_images` key. -/
def _style_striped_progressbar_pairs (_d : ThemeDefinition) :
    List (String × StyleSpec) :=
  [("Striped.Horizontal.Progressbar.pbar",
    { create := some (.image "primary_striped_hpbar" []) }),
   ("Striped.Horizontal.TProgressbar", { configured := true })]
  ++ ThemeColors.labels.flatMap (fun c =>
      [(c ++ ".Striped.Horizontal.Progressbar.pbar",
        { create := some (.image (c ++ "_striped_hpbar") []) }),
       (c ++ ".Striped.Horizontal.TProgressbar", { configured := true })])

/-- `StylerTTK._style_floodgauge` (core/style.py 935-1018). -/
def _style_floodgauge_pairs (_d : ThemeDefinition) : List (String × StyleSpec) :=
  [("Floodgauge.trough", ecFrom "clam"),
   ("Floodgauge.pbar", ecFrom "default"),
   ("Horizontal.TFloodgauge", { configured := true }),
   ("Vertical.TFloodgauge", { configured := true })]
  ++ ThemeColors.labels.flatMap (fun c =>
      [(c ++ ".Horizontal.TFloodgauge", { configured := true }),
       (c ++ ".Vertical.TFloodgauge", { configured := true })])

/-- `StylerTTK._style_radiobutton` (core/style.py 2336-2447): each
variant's indicator element is created from the radio images of that
color, and the variant's layout uses that indicator element. -/
def _style_radiobutton_pairs (_d : ThemeDefinition) : List (String × StyleSpec) :=
  [("Radiobutton.indicator",
    { create := some (.image "primary_radio_on"
       [("disabled", "primary_radio_disabled"), ("!selected", "primary_radio_off")]) }),
   ("TRadiobutton",
    { configured := true
      layout :=
       [.node "Radiobutton.padding"
         [.node "Radiobutton.indicator" [],
          .node "Radiobutton.focus" [.node "Radiobutton.label" []]]]
      stateMap :=
       [("foreground", ["disabled", "active"]),
        ("indicatorforeground", ["disabled", "active selected !disabled"])] })]
  ++ ThemeColors.labels.flatMap (fun c =>
      [(c ++ ".Radiobutton.indicator",
        { create := some (.image (c ++ "_radio_on")
           [("disabled", c ++ "_radio_disabled"), ("!selected", c ++ "_radio_off")]) }),
       (c ++ ".TRadiobutton",
        { configured := true
          layout :=
           [.node "Radiobutton.padding"
             [.node (c ++ ".Radiobutton.indicator") [],
              .node "Radiobutton.focus" [.node "Radiobutton.label" []]]]
          stateMap :=
           [("foreground", ["disabled", "active"]),
            ("indicatorforeground", ["disabled", "active selected !disabled"])] })])

/-- `StylerTTK._style_solid_menubutton` (core/style.py 2981-2935 region). -/
def _style_solid_menubutton_pairs (_d : ThemeDefinition) : List (String × StyleSpec) :=
  let mapSpec : List (String × List String) :=
    [("arrowcolor", ["disabled"]),
     ("foreground", ["disabled"]),
     ("background", ["disabled", "pressed !disabled", "hover !disabled"]),
     ("bordercolor", ["disabled", "pressed !disabled", "hover !disabled"]),
     ("darkcolor", ["disabled", "pressed !disabled", "hover !disabled"]),
     ("lightcolor", ["disabled", "pressed !disabled", "hover !disabled"])]
  [("TMenubutton", { configured := true, stateMap := mapSpec })]
  ++ ThemeColors.labels.flatMap (fun c =>
      [(c ++ ".TMenubutton", { configured := true, stateMap := mapSpec })])

/-- `StylerTTK._style_outline_menubutton` (core/style.py 3155-3308). -/
def _style_outline_menubutton_pairs (_d : ThemeDefinition) :
    List (String × StyleSpec) :=
  let mapSpec : List (String × List String) :=
    [("foreground", ["disabled", "pressed !disabled", "hover !disabled"]),
     ("background", ["pressed !disabled", "hover !disabled"]),
     ("bordercolor", ["disabled", "pressed !disabled", "hover !disabled"]),
     ("darkcolor", ["pressed !disabled", "hover !disabled"]),
     ("lightcolor", ["pressed !disabled", "hover !disabled"]),
     ("arrowcolor", ["disabled", "pressed !disabled", "hover !disabled"])]
  [("Outline.TMenubutton", { configured := true, stateMap := mapSpec })]
  ++ ThemeColors.labels.flatMap (fun c =>
      [(c ++ ".Outline.TMenubutton", { configured := true, stateMap := mapSpec })])

/-- `StylerTTK._style_solid_toolbutton` (core/style.py 1965-2100
region). -/
def _style_solid_toolbutton_pairs (_d : ThemeDefinition) : List (String × StyleSpec) :=
  [("Toolbutton",
    { configured := true
      stateMap :=
       [("foreground", ["disabled"]),
        ("background",
         ["disabled", "pressed !disabled", "selected !disabled", "hover !disabled"]),
        ("bordercolor",
         ["disabled", "selected !disabled", "pressed !disabled", "hover !disabled"]),
        ("darkcolor",
         ["disabled", "pressed !disabled", "selected !disabled", "hover !disabled"]),
        ("lightcolor",
         ["disabled", "pressed !disabled", "selected !disabled", "hover !disabled"])] })]
  ++ ThemeColors.labels.flatMap (fun c =>
      [(c ++ ".Toolbutton",
        { configured := true
          stateMap :=
           [("foreground", ["disabled"]),
            ("background",
             ["disabled", "pressed !disabled", "selected !disabled", "hover !disabled"]),
            ("bordercolor",
             ["disabled", "pressed !disabled", "selected !disabled", "hover !disabled"]),
            ("darkcolor",
             ["disabled", "pressed !disabled", "selected !disabled", "hover !disabled"]),
            ("lightcolor",
             ["disabled", "pressed !disabled", "selected !disabled",
              "hover !disabled"])] })])

/-- `StylerTTK._style_outline_toolbutton` (core/style.py 2102-2260). -/
def _style_outline_toolbutton_pairs (_d : ThemeDefinition) :
    List (String × StyleSpec) :=
  let mapSpec : List (String × List String) :=
    [("foreground",
      ["disabled", "pressed !disabled", "selected !disabled", "hover !disabled"]),
     ("background", ["pressed !disabled", "selected !disabled", "hover !disabled"]),
     ("bordercolor",
      ["disabled", "pressed !disabled", "selected !disabled", "hover !disabled"]),
     ("darkcolor", ["pressed !disabled", "selected !disabled", "hover !disabled"]),
     ("lightcolor", ["pressed !disabled", "selected !disabled", "hover !disabled"])]
  [("Outline.Toolbutton", { configured := true, stateMap := mapSpec })]
  ++ ThemeColors.labels.flatMap (fun c =>
      [(c ++ ".Outline.Toolbutton", { configured := true, stateMap := mapSpec })])

/-- `StylerTTK._style_treeview` (core/style.py 1226-1313). -/
def _style_treeview_pairs (_d : ThemeDefinition) : List (String × StyleSpec) :=
  [("Treeview",
    { configured := true
      stateMap :=
       [("background", ["selected"]), ("foreground", ["disabled", "selected"])] }),
   ("Treeview.Heading", { configured := true }),
   ("Treeitem.indicator", ecFrom "alt")]
  ++ ThemeColors.labels.flatMap (fun c =>
      [(c ++ ".Treeview.Heading",
        { configured := true
          stateMap :=
           [("foreground", ["disabled"]), ("bordercolor", ["focus !disabled"])] })])

/-- `StylerTTK._style_roundtoggle_toolbutton` (core/style.py
1746-1860): the indicator element of each variant is created from the
round toggle images of that color, and the variant's layout uses that
indicator element in place of the default indicator. -/
def _style_roundtoggle_toolbutton_pairs (_d : ThemeDefinition) :
    List (String × StyleSpec) :=
  [("Roundtoggle.Toolbutton.indicator",
    { create := some (.image "primary_roundtoggle_on"
       [("disabled", "primary_roundtoggle_disabled"),
        ("!selected", "primary_roundtoggle_off")]) }),
   ("Roundtoggle.Toolbutton",
    { configured := true
      layout :=
       [.node "Toolbutton.border"
         [.node "Toolbutton.padding"
           [.node "Roundtoggle.Toolbutton.indicator" [],
            .node "Toolbutton.label" []]]]
      stateMap :=
       [("foreground", ["disabled", "hover"]),
        ("background", ["selected", "!selected"])] })]
  ++ ThemeColors.labels.flatMap (fun c =>
      [(c ++ ".Roundtoggle.Toolbutton.indicator",
        { create := some (.image (c ++ "_roundtoggle_on")
           [("disabled", c ++ "_roundtoggle_disabled"),
            ("!selected", c ++ "_roundtoggle_off")]) }),
       (c ++ ".Roundtoggle.Toolbutton",
        { configured := true
          layout :=
           [.node "Toolbutton.border"
             [.node "Toolbutton.padding"
               [.node (c ++ ".Roundtoggle.Toolbutton.indicator") [],
                .node "Toolbutton.label" []]]]
          stateMap :=
           [("foreground", ["disabled", "hover"]),
            ("background", ["selected", "!selected"])] })])

/-- `StylerTTK._style_squaretoggle_toolbutton` (core/style.py
1862-1963). -/
def _style_squaretoggle_toolbutton_pairs (_d : ThemeDefinition) :
    List (String × StyleSpec) :=
  [("Squaretoggle.Toolbutton.indicator",
    { create := some (.image "primary_squaretoggle_on"
       [("disabled", "primary_squaretoggle_disabled"),
        ("!selected", "primary_squaretoggle_off")]) }),
   ("Squaretoggle.Toolbutton",
    { configured := true
      layout :=
       [.node "Toolbutton.border"
         [.node "Toolbutton.padding"
           [.node "Squaretoggle.Toolbutton.indicator" [],
            .node "Toolbutton.label" []]]]
      stateMap :=
       [("foreground", ["disabled", "hover"]),
        ("background", ["selected", "!selected"])] })]
  ++ ThemeColors.labels.flatMap (fun c =>
      [(c ++ ".Squaretoggle.Toolbutton.indicator",
        { create := some (.image (c ++ "_squaretoggle_on")
           [("disabled", c ++ "_squaretoggle_disabled"),
            ("!selected", c ++ "_squaretoggle_off")]) }),
       (c ++ ".Squaretoggle.Toolbutton",
        { configured := true
          layout :=
           [.node "Toolbutton.border"
             [.node "Toolbutton.padding"
               [.node (c ++ ".Squaretoggle.Toolbutton.indicator") [],
                .node "Toolbutton.label" []]]]
          stateMap :=
           [("foreground", ["disabled", "hover"]),
            ("background", ["selected", "!selected"])] })])

/-! ### Theme creation pipeline (core/style.py 317-378)

`update_ttk_theme_settings` is the wrapper that merges every widget
style fragment into the single flat settings dictionary, and
`create_theme` then registers the accumulated dictionary with
`theme_create` on top of the base theme "clam".  The `theme_images`
side effects of the private widget methods are covered by the
standalone image creators above; the settings pipeline threads the
asset environment through the static (uuid-consuming) style methods
exactly as the source calls them. -/

/-- One `self.settings.update(...)` merge of a settings fragment that
does not touch the asset store. -/
def applyPairs (pairs : List (String × StyleSpec)) (acc : Settings × AssetEnv) :
    Settings × AssetEnv :=
  (dictUpdate acc.1 pairs, acc.2)

/-- One `self.settings.update(...)` merge of a fragment produced by an
asset-consuming static style method. -/
def applyAsset (f : AssetEnv → List (String × StyleSpec) × AssetEnv)
    (acc : Settings × AssetEnv) : Settings × AssetEnv :=
  (dictUpdate acc.1 (f acc.2).1, (f acc.2).2)

/-- Body of the `for color in self.theme.colors` loop of
`update_ttk_theme_settings` (core/style.py 352-367): the seven themed
style variants produced for one color label, merged in source order. -/
def themedStep (d : ThemeDefinition) (acc : Settings × AssetEnv) (c : String) :
    Settings × AssetEnv :=
  acc
  |> applyPairs (style_solid_buttons d (some c) (c ++ ".TButton"))
  |> applyPairs (style_link_buttons d (some c) (c ++ ".Link.TButton"))
  |> applyAsset (style_sizegrip d none (some c) (c ++ ".TSizegrip"))
  |> applyAsset (style_checkbutton d none none (some c) (c ++ ".TCheckbutton"))
  |> applyAsset (style_separator d (some c) "horizontal" (c ++ ".Horizontal.TSeparator"))
  |> applyAsset (style_separator d (some c) "vertical" (c ++ ".Vertical.TSeparator"))
  |> applyPairs (style_outline_buttons d (some c) (c ++ ".Outline.TButton"))

/-- `StylerTTK.update_ttk_theme_settings` (core/style.py 322-378): the
private widget methods, then the themed per-color loop, then the
default unprefixed styles, and finally the `.` defaults, every merge in
source order. -/
def update_ttk_theme_settings (d : ThemeDefinition) (env : AssetEnv) :
    Settings × AssetEnv :=
  (([], env) : Settings × AssetEnv)
  |> applyPairs (_style_labelframe_pairs d)
  |> applyPairs (_style_spinbox_pairs d)
  |> applyPairs (_style_scale_pairs d)
  |> applyPairs (_style_scrollbar_pairs d)
  |> applyPairs (_style_combobox_pairs d)
  |> applyPairs (_style_exit_button_pairs d)
  |> applyPairs (_style_frame_pairs d)
  |> applyPairs (_style_calendar_pairs d)
  |> applyPairs (_style_entry_pairs d)
  |> applyPairs (_style_label_pairs d)
  |> applyPairs (_style_meter_pairs d)
  |> applyPairs (_style_notebook_pairs d)
  |> applyPairs (_style_outline_menubutton_pairs d)
  |> applyPairs (_style_outline_toolbutton_pairs d)
  |> applyPairs (_style_progressbar_pairs d)
  |> applyPairs (_style_striped_progressbar_pairs d)
  |> applyPairs (_style_floodgauge_pairs d)
  |> applyPairs (_style_radiobutton_pairs d)
  |> applyPairs (_style_solid_menubutton_pairs d)
  |> applyPairs (_style_solid_toolbutton_pairs d)
  |> applyPairs (_style_treeview_pairs d)
  |> applyPairs (_style_panedwindow_pairs d)
  |> applyPairs (_style_roundtoggle_toolbutton_pairs d)
  |> applyPairs (_style_squaretoggle_toolbutton_pairs d)
  |> (fun acc => ThemeColors.labels.foldl (themedStep d) acc)
  |> applyPairs (style_solid_buttons d none "TButton")
  |> applyPairs (style_outline_buttons d none "Outline.TButton")
  |> applyPairs (style_link_buttons d none "Link.TButton")
  |> applyAsset (style_sizegrip d none none "TSizegrip")
  |> applyAsset (style_separator d none "vertical" "Vertical.TSeparator")
  |> applyAsset (style_separator d none "horizontal" "Horizontal.TSeparator")
  |> applyAsset (style_checkbutton d none none none "TCheckbutton")
  |> applyPairs (_style_defaults_pairs d)

/-- The single toolkit `theme_create` call issued by `create_theme`. -/
structure ThemeCreateCall where
  name : String
  parent : String
  settings : Settings

/-- `StylerTTK.create_theme` (core/style.py 317-320): accumulate the
settings dictionary, then register the theme on top of "clam". -/
def create_theme (d : ThemeDefinition) (env : AssetEnv) :
    Settings × AssetEnv × ThemeCreateCall :=
  let r := update_ttk_theme_settings d env
  (r.1, r.2, ⟨d.name, "clam", r.1⟩)

end StylerTTK

/-- Replace the value stored under a key, or append the binding
(Python dict item assignment). -/
def assocUpdate {α : Type} (l : List (String × α)) (k : String) (v : α) :
    List (String × α) :=
  if l.any (fun p => p.1 = k) then
    l.map (fun p => if p.1 = k then (k, v) else p)
  else l ++ [(k, v)]

/-- Python truthiness of the optional theme name (`if not themename`). -/
def falsyName : Option String → Bool
  | none => true
  | some s => s = ""

/-- Result of a `theme_use` call. -/
inductive ThemeUseResult where
  | currentName (n : String)
  | invalid
  | applied
  | error
  deriving Repr, DecidableEq

namespace CoreStyle

/-! ### `Style.theme_use` of src/ttkbootstrap/core/style.py (59-87) -/

/-- State of a core `Style` object together with the toolkit state it
manipulates: the `theme` attribute, the registered theme-name set
`themes`, the loaded definitions, the `theme_objects` store, the
toolkit's created theme list (`ttk.Style.theme_names()`), the
toolkit's current theme and the global asset store. -/
structure StyleState where
  theme : Option ThemeDefinition
  themes : List String
  theme_definitions : List (String × ThemeDefinition)
  theme_objects : List (String × ThemeDefinition)
  tkThemes : List String
  current : String
  env : AssetEnv

/-- `Style.theme_use` (core/style.py 59-87).  Every call first
reassigns `self.theme` from the definitions lookup; a falsy name
returns the toolkit's current theme; an unregistered name prints a
diagnostic (the Bool output) and returns; otherwise the theme is
created on first use (running `StylerTTK.create_theme`, which registers
the theme with the toolkit) and the toolkit switches to it.  The final
`style_tkinter_widgets` call raises a `KeyError` when no theme object
exists for the name, which the `error` result records. -/
def theme_use (s : StyleState) (themename : Option String) :
    StyleState × ThemeUseResult × Bool :=
  let theme' :=
    match themename with
    | none => none
    | some n => s.theme_definitions.lookup n
  let s1 := { s with theme := theme' }
  if falsyName themename then (s1, .currentName s.current, false)
  else
    let n := themename.getD ""
    if ¬ s.themes.contains n then (s1, .invalid, true)
    else
      if ¬ s1.tkThemes.contains n then
        match theme' with
        | none => (s1, .error, false)
        | some d =>
          let r := StylerTTK.create_theme d s1.env
          let s2 := { s1 with
            theme_objects := assocUpdate s1.theme_objects n d
            tkThemes := s1.tkThemes ++ [d.name]
            env := r.2.1
            current := n }
          (s2, .applied, false)
      else
        let s2 := { s1 with current := n }
        if s2.theme_objects.any (fun p => p.1 = n) then (s2, .applied, false)
        else (s2, .error, false)

end CoreStyle

namespace PkgStyle

/-! ### `Style.theme_use` of src/ttkbootstrap/style/style.py (143-179) -/

/-- State of the second-generation `Style` object.  `StyleBuilderTTK`
lives in the absent module `ttkbootstrap.style.style_builder`; building
a theme is modelled from the spec as registering the theme object and
making the theme available to the toolkit. -/
structure StyleState where
  theme : Option ThemeDefinition
  theme_names : List String
  theme_definitions : List (String × ThemeDefinition)
  theme_objects : List String
  tkThemes : List String
  current : String

/-- `Style.theme_use` (style/style.py 143-179): reassign `self.theme`
from the definitions lookup, answer the query form, reject unregistered
names with a printed diagnostic, switch directly when the toolkit
already has the theme, and otherwise build it (`StyleBuilderTTK`,
modelled from the spec as recording the new theme object). -/
def theme_use (s : StyleState) (themename : Option String) :
    StyleState × ThemeUseResult × Bool :=
  let theme' :=
    match themename with
    | none => none
    | some n => s.theme_definitions.lookup n
  let s1 := { s with theme := theme' }
  if falsyName themename then (s1, .currentName s.current, false)
  else
    let n := themename.getD ""
    if ¬ s.theme_names.contains n then (s1, .invalid, true)
    else
      if s1.tkThemes.contains n then ({ s1 with current := n }, .applied, false)
      else
        let s2 := { s1 with
          theme_objects := s1.theme_objects ++ [n]
          tkThemes := s1.tkThemes ++ [n] }
        (s2, .applied, false)

end PkgStyle

namespace RootStyle

/-! ### `Style` of src/ttkbootstrap/style.py -/

/-- State of the module-level `Style` of src/ttkbootstrap/style.py: in
addition to the core fields it keeps the `Style.current_theme` class
attribute.  The theme-building side of this sibling implementation is
recorded as registering the theme object and the toolkit theme. -/
structure StyleState where
  theme : Option ThemeDefinition
  current_theme : Option ThemeDefinition
  themes : List String
  theme_definitions : List (String × ThemeDefinition)
  theme_objects : List String
  tkThemes : List String
  current : String

/-- `Style.theme_use` (style.py 93-118): like the core version, but it
also mirrors `self.theme` into the `Style.current_theme` class
attribute before any branch is taken. -/
def theme_use (s : StyleState) (themename : Option String) :
    StyleState × ThemeUseResult × Bool :=
  let theme' :=
    match themename with
    | none => none
    | some n => s.theme_definitions.lookup n
  let s1 := { s with theme := theme', current_theme := theme' }
  if falsyName themename then (s1, .currentName s.current, false)
  else
    let n := themename.getD ""
    if ¬ s.themes.contains n then (s1, .invalid, true)
    else
      let s2 :=
        if ¬ s1.tkThemes.contains n then
          { s1 with
            theme_objects := s1.theme_objects ++ [n]
            tkThemes := s1.tkThemes ++ [n] }
        else s1
      ({ s2 with current := n }, .applied, false)

/-- `Style.register_style` (style.py 74-84): create the per-theme set
on first use and add the style to it. -/
def register_style (reg : List (String × List String)) (theme style : String) :
    List (String × List String) :=
  match reg.lookup theme with
  | none => reg ++ [(theme, [style])]
  | some styles =>
      assocUpdate reg theme (if styles.contains style then styles else styles ++ [style])

/-- `Style.style_is_registered` (style.py 85-91): a bare `return` (that
is, `None`) when the theme has no registered styles (`if not
theme_styles`, covering both a missing key and an empty set), and the
boolean membership otherwise. -/
def style_is_registered (reg : List (String × List String))
    (theme style : String) : Option Bool :=
  match reg.lookup theme with
  | none => none
  | some styles => if styles.isEmpty then none else some (styles.contains style)

end RootStyle

/-! ### Pseudo-state vocabulary -/

/-- Split a state-spec string into its space-separated words. -/
def splitWordsAux : List Char → List Char → List String
  | [], acc => if acc.isEmpty then [] else [String.mk acc.reverse]
  | c :: cs, acc =>
    if c = ' ' then
      if acc.isEmpty then splitWordsAux cs []
      else String.mk acc.reverse :: splitWordsAux cs []
    else splitWordsAux cs (c :: acc)

/-- Words of a ttk state-spec string such as "pressed !disabled". -/
def splitWords (s : String) : List String := splitWordsAux s.toList []

/-- Drop the leading negation of a state word ("!disabled" to
"disabled"). -/
def stripNeg (w : String) : String :=
  match w.toList with
  | '!' :: rest => String.mk rest
  | _ => w

/-- The four pseudo-states named by the spec. -/
def specStates : List String := ["hover", "pressed", "disabled", "selected"]

/-- The pseudo-states actually used by the style maps of theme
creation: the four named by the spec plus `focus` and `active`. -/
def usedStates : List String :=
  ["hover", "pressed", "disabled", "selected", "focus", "active"]

/-- Every pseudo-state of every style-map entry of `sp` lies in
`allowed` (negations stripped). -/
def SpecStatesIn (allowed : List String) (sp : StyleSpec) : Prop :=
  ∀ m ∈ sp.stateMap, ∀ spec ∈ m.2, ∀ w ∈ splitWords spec, stripNeg w ∈ allowed

/-- Every pseudo-state of every style map of the settings dictionary
lies in `allowed`. -/
def MapStatesIn (allowed : List String) (s : Settings) : Prop :=
  ∀ p ∈ s, SpecStatesIn allowed p.2

instance (allowed : List String) (sp : StyleSpec) :
    Decidable (SpecStatesIn allowed sp) := by
  unfold SpecStatesIn
  infer_instance

/-! ### Dictionary lemmas -/

theorem mem_updateOne_self (s : Settings) (kv : String × StyleSpec) :
    kv ∈ updateOne s kv := by
  unfold updateOne
  split
  · next h =>
      rcases List.any_eq_true.mp h with ⟨p, hp, hpk⟩
      refine List.mem_map.mpr ⟨p, hp, ?_⟩
      simp [of_decide_eq_true hpk]
  · exact List.mem_append_right _ (List.mem_singleton.mpr rfl)

theorem mem_updateOne_keep {s : Settings} {p : String × StyleSpec}
    (kv : String × StyleSpec) (hp : p ∈ s) (hne : p.1 ≠ kv.1) :
    p ∈ updateOne s kv := by
  unfold updateOne
  split
  · refine List.mem_map.mpr ⟨p, hp, ?_⟩
    simp [hne]
  · exact List.mem_append_left _ hp

theorem mem_keys_updateOne {s : Settings} {k : String}
    (kv : String × StyleSpec) (hk : k ∈ keysOf s) :
    k ∈ keysOf (updateOne s kv) := by
  rcases List.mem_map.mp hk with ⟨p, hp, hpk⟩
  unfold updateOne
  split
  · refine List.mem_map.mpr
      ⟨(fun q => if q.1 = kv.1 then kv else q) p, List.mem_map_of_mem _ hp, ?_⟩
    by_cases hc : p.1 = kv.1
    · simp [hc, ← hpk]
    · show (if p.1 = kv.1 then kv else p).1 = k
      rw [if_neg hc]
      exact hpk
  · exact List.mem_map.mpr ⟨p, List.mem_append_left _ hp, hpk⟩

theorem self_mem_keys_updateOne (s : Settings) (kv : String × StyleSpec) :
    kv.1 ∈ keysOf (updateOne s kv) :=
  List.mem_map.mpr ⟨kv, mem_updateOne_self s kv, rfl⟩

theorem dictUpdate_append (s : Settings) (a b : List (String × StyleSpec)) :
    dictUpdate s (a ++ b) = dictUpdate (dictUpdate s a) b := by
  induction a generalizing s with
  | nil => rfl
  | cons kv rest ih => simpa [dictUpdate] using ih (updateOne s kv)

theorem mem_keys_dictUpdate_left {s : Settings} {k : String}
    (new : List (String × StyleSpec)) (hk : k ∈ keysOf s) :
    k ∈ keysOf (dictUpdate s new) := by
  induction new generalizing s with
  | nil => exact hk
  | cons kv rest ih => exact ih (mem_keys_updateOne kv hk)

theorem mem_keys_dictUpdate_right {s : Settings} {k : String}
    {new : List (String × StyleSpec)} (hk : k ∈ keysOf new) :
    k ∈ keysOf (dictUpdate s new) := by
  induction new generalizing s with
  | nil => cases hk
  | cons kv rest ih =>
      rcases List.mem_map.mp hk with ⟨p, hp, hpk⟩
      rcases List.mem_cons.mp hp with rfl | hp'
      · exact hpk ▸ mem_keys_dictUpdate_left rest (self_mem_keys_updateOne s p)
      · exact ih (List.mem_map.mpr ⟨p, hp', hpk⟩)

theorem mem_dictUpdate_keep {s : Settings} {p : String × StyleSpec}
    (new : List (String × StyleSpec)) (hp : p ∈ s)
    (hk : ∀ kv ∈ new, p.1 ≠ kv.1) : p ∈ dictUpdate s new := by
  induction new generalizing s with
  | nil => exact hp
  | cons kv rest ih =>
      exact ih (mem_updateOne_keep kv hp (hk kv (List.mem_cons_self _ _)))
        (fun q hq => hk q (List.mem_cons_of_mem _ hq))

theorem mem_dictUpdate_insert {s : Settings} {kv : String × StyleSpec}
    {a b : List (String × StyleSpec)}
    (hk : ∀ q ∈ b, kv.1 ≠ q.1) : kv ∈ dictUpdate s (a ++ kv :: b) := by
  rw [dictUpdate_append]
  show kv ∈ dictUpdate (updateOne (dictUpdate s a) kv) b
  exact mem_dictUpdate_keep b (mem_updateOne_self _ kv) hk

/-! ### Preservation of the pseudo-state invariant -/

theorem mapStatesIn_updateOne {a : List String} {s : Settings}
    {kv : String × StyleSpec} (hs : MapStatesIn a s) (hkv : SpecStatesIn a kv.2) :
    MapStatesIn a (updateOne s kv) := by
  intro p hp
  unfold updateOne at hp
  split at hp
  · rcases List.mem_map.mp hp with ⟨q, hq, hqe⟩
    by_cases hc : q.1 = kv.1
    · simpa [← hqe, hc] using hkv
    · simpa [← hqe, hc] using hs q hq
  · rcases List.mem_append.mp hp with h | h
    · exact hs p h
    · simpa [List.mem_singleton.mp h] using hkv

theorem mapStatesIn_dictUpdate {a : List String} {s : Settings}
    {new : List (String × StyleSpec)} (hs : MapStatesIn a s)
    (hnew : ∀ p ∈ new, SpecStatesIn a p.2) :
    MapStatesIn a (dictUpdate s new) := by
  induction new generalizing s with
  | nil => exact hs
  | cons kv rest ih =>
      exact ih (mapStatesIn_updateOne hs (hnew kv (List.mem_cons_self _ _)))
        (fun p hp => hnew p (List.mem_cons_of_mem _ hp))

/-- A key that begins with the uuid marker differs from any string that
does not. -/
theorem uuid_append_ne (x : String) (t : String)
    (h : t.toList.head? ≠ some 'u') : "uuid-" ++ x ≠ t := by
  intro he
  apply h
  rw [← he]
  have : ("uuid-" ++ x).toList = "uuid-".toList ++ x.toList := by
    simp [String.toList]
  simp [this]

/-- A uuid element name (`uuidName n ++ suffix`) in uuid-marker form. -/
theorem uuidName_append (n : ℕ) (suffix : String) :
    uuidName n ++ suffix = "uuid-" ++ (toString n ++ suffix) := by
  rw [uuidName, String.append_assoc]

/-! ### Keys of the static style fragments -/

namespace StylerTTK

theorem keys_style_solid_buttons (d : ThemeDefinition) (bg : Option String)
    (st : String) : keysOf (style_solid_buttons d bg st) = [st] := rfl

theorem keys_style_outline_buttons (d : ThemeDefinition) (fg : Option String)
    (st : String) : keysOf (style_outline_buttons d fg st) = [st] := rfl

theorem keys_style_link_buttons (d : ThemeDefinition) (fg : Option String)
    (st : String) : keysOf (style_link_buttons d fg st) = [st] := rfl

theorem keys_style_sizegrip (d : ThemeDefinition) (bg fg : Option String)
    (st : String) (env : AssetEnv) :
    keysOf (style_sizegrip d bg fg st env).1 =
      [st, uuidName env.fresh ++ ".Sizegrip.sizegrip"] := rfl

theorem keys_style_checkbutton (d : ThemeDefinition) (bg fg ic : Option String)
    (st : String) (env : AssetEnv) :
    keysOf (style_checkbutton d bg fg ic st env).1 =
      [uuidName env.fresh ++ ".Checkbutton.indicator", st] := rfl

theorem style_separator_h_pairs (d : ThemeDefinition) (bg : Option String)
    (st : String) (env : AssetEnv) :
    (style_separator d bg "horizontal" st env).1 =
      [(uuidName env.fresh ++ ".Horizontal.Separator.separator",
        { create := some (.image (uuidName env.fresh) []) }),
       (st, { layout :=
          [.node (uuidName env.fresh ++ ".Horizontal.Separator.separator") []] })] := by
  have hcond : strToLower "horizontal" = "horizontal" := by decide
  simp [style_separator, hcond]

theorem style_separator_v_pairs (d : ThemeDefinition) (bg : Option String)
    (st : String) (env : AssetEnv) :
    (style_separator d bg "vertical" st env).1 =
      [(uuidName (env.fresh + 1) ++ ".Vertical.Separator.separator",
        { create := some (.image (uuidName (env.fresh + 1)) []) }),
       (st, { layout :=
          [.node (uuidName (env.fresh + 1) ++ ".Vertical.Separator.separator") []] })] := by
  have hcond : ¬ strToLower "vertical" = "horizontal" := by decide
  simp [style_separator, hcond]

theorem keys_style_separator_h (d : ThemeDefinition) (bg : Option String)
    (st : String) (env : AssetEnv) :
    keysOf (style_separator d bg "horizontal" st env).1 =
      [uuidName env.fresh ++ ".Horizontal.Separator.separator", st] := by
  rw [style_separator_h_pairs]
  rfl

theorem keys_style_separator_v (d : ThemeDefinition) (bg : Option String)
    (st : String) (env : AssetEnv) :
    keysOf (style_separator d bg "vertical" st env).1 =
      [uuidName (env.fresh + 1) ++ ".Vertical.Separator.separator", st] := by
  rw [style_separator_v_pairs]
  rfl

/-! ### The themed per-color loop: key lemmas -/

/-- The seven themed style names produced for a color label. -/
def themedKeys (c : String) : List String :=
  [c ++ ".TButton", c ++ ".Link.TButton", c ++ ".TSizegrip", c ++ ".TCheckbutton",
   c ++ ".Horizontal.TSeparator", c ++ ".Vertical.TSeparator", c ++ ".Outline.TButton"]

/-- The seven default unprefixed style names of the claim. -/
def defaultStyleKeys : List String :=
  ["TButton", "Link.TButton", "Outline.TButton", "TSizegrip", "TCheckbutton",
   "Horizontal.TSeparator", "Vertical.TSeparator"]

theorem keys_applyPairs_left {acc : Settings × AssetEnv} {k : String}
    (ps : List (String × StyleSpec)) (hk : k ∈ keysOf acc.1) :
    k ∈ keysOf (applyPairs ps acc).1 :=
  mem_keys_dictUpdate_left _ hk

theorem keys_applyPairs_right {acc : Settings × AssetEnv} {k : String}
    {ps : List (String × StyleSpec)} (hk : k ∈ keysOf ps) :
    k ∈ keysOf (applyPairs ps acc).1 :=
  mem_keys_dictUpdate_right hk

theorem keys_applyAsset_left {acc : Settings × AssetEnv} {k : String}
    (f : AssetEnv → List (String × StyleSpec) × AssetEnv)
    (hk : k ∈ keysOf acc.1) : k ∈ keysOf (applyAsset f acc).1 :=
  mem_keys_dictUpdate_left _ hk

theorem keys_applyAsset_right {acc : Settings × AssetEnv} {k : String}
    {f : AssetEnv → List (String × StyleSpec) × AssetEnv}
    (hk : k ∈ keysOf (f acc.2).1) : k ∈ keysOf (applyAsset f acc).1 :=
  mem_keys_dictUpdate_right hk

theorem mem_applyPairs_keep {acc : Settings × AssetEnv} {p : String × StyleSpec}
    (ps : List (String × StyleSpec)) (hp : p ∈ acc.1)
    (h : ∀ kv ∈ ps, p.1 ≠ kv.1) : p ∈ (applyPairs ps acc).1 :=
  mem_dictUpdate_keep _ hp h

theorem mem_applyAsset_keep {acc : Settings × AssetEnv} {p : String × StyleSpec}
    (f : AssetEnv → List (String × StyleSpec) × AssetEnv) (hp : p ∈ acc.1)
    (h : ∀ kv ∈ (f acc.2).1, p.1 ≠ kv.1) : p ∈ (applyAsset f acc).1 :=
  mem_dictUpdate_keep _ hp h

theorem themedStep_keys_mono (d : ThemeDefinition) (acc : Settings × AssetEnv)
    (c : String) {k : String} (hk : k ∈ keysOf acc.1) :
    k ∈ keysOf (themedStep d acc c).1 := by
  simp only [themedStep]
  exact keys_applyPairs_left _ (keys_applyAsset_left _ (keys_applyAsset_left _
    (keys_applyAsset_left _ (keys_applyAsset_left _ (keys_applyPairs_left _
      (keys_applyPairs_left _ hk))))))

theorem themedStep_adds (d : ThemeDefinition) (acc : Settings × AssetEnv)
    (c : String) {k : String} (hk : k ∈ themedKeys c) :
    k ∈ keysOf (themedStep d acc c).1 := by
  simp only [themedKeys, List.mem_cons, List.mem_singleton, List.not_mem_nil,
    or_false] at hk
  simp only [themedStep]
  rcases hk with rfl | rfl | rfl | rfl | rfl | rfl | rfl
  · refine keys_applyPairs_left _ (keys_applyAsset_left _ (keys_applyAsset_left _
      (keys_applyAsset_left _ (keys_applyAsset_left _ (keys_applyPairs_left _
        (keys_applyPairs_right ?_))))))
    simp [keysOf, style_solid_buttons]
  · refine keys_applyPairs_left _ (keys_applyAsset_left _ (keys_applyAsset_left _
      (keys_applyAsset_left _ (keys_applyAsset_left _ (keys_applyPairs_right ?_)))))
    simp [keysOf, style_link_buttons]
  · refine keys_applyPairs_left _ (keys_applyAsset_left _ (keys_applyAsset_left _
      (keys_applyAsset_left _ (keys_applyAsset_right ?_))))
    rw [keys_style_sizegrip]
    simp
  · refine keys_applyPairs_left _ (keys_applyAsset_left _ (keys_applyAsset_left _
      (keys_applyAsset_right ?_)))
    rw [keys_style_checkbutton]
    simp
  · refine keys_applyPairs_left _ (keys_applyAsset_left _ (keys_applyAsset_right ?_))
    rw [keys_style_separator_h]
    simp
  · refine keys_applyPairs_left _ (keys_applyAsset_right ?_)
    rw [keys_style_separator_v]
    simp
  · refine keys_applyPairs_right ?_
    simp [keysOf, style_outline_buttons]

theorem foldl_themedStep_keys_mono (d : ThemeDefinition) (ls : List String)
    (acc : Settings × AssetEnv) {k : String} (hk : k ∈ keysOf acc.1) :
    k ∈ keysOf (List.foldl (themedStep d) acc ls).1 := by
  induction ls generalizing acc with
  | nil => exact hk
  | cons a rest ih =>
      rw [List.foldl_cons]
      exact ih _ (themedStep_keys_mono d acc a hk)

theorem foldl_themedStep_adds (d : ThemeDefinition) (ls : List String)
    (acc : Settings × AssetEnv) {c : String} (hc : c ∈ ls) {k : String}
    (hk : k ∈ themedKeys c) :
    k ∈ keysOf (List.foldl (themedStep d) acc ls).1 := by
  induction ls generalizing acc with
  | nil => cases hc
  | cons a rest ih =>
      rw [List.foldl_cons]
      rcases List.mem_cons.mp hc with rfl | h
      · exact foldl_themedStep_keys_mono d rest _ (themedStep_adds d acc c hk)
      · exact ih _ h

/-! ### Survival of entries through the loop -/

theorem keep_of_keys {p : String × StyleSpec} {new : List (String × StyleSpec)}
    (h : ∀ k ∈ keysOf new, p.1 ≠ k) : ∀ kv ∈ new, p.1 ≠ kv.1 :=
  fun kv hkv => h kv.1 (List.mem_map_of_mem _ hkv)

theorem mem_themedStep_keep (d : ThemeDefinition) (acc : Settings × AssetEnv)
    (c : String) {p : String × StyleSpec} (hp : p ∈ acc.1)
    (h1 : ∀ k ∈ themedKeys c, p.1 ≠ k)
    (h2 : ∀ x, p.1 ≠ "uuid-" ++ x) :
    p ∈ (themedStep d acc c).1 := by
  simp only [themedKeys, List.mem_cons, List.not_mem_nil, or_false,
    forall_eq_or_imp, forall_eq] at h1
  obtain ⟨n1, n2, n3, n4, n5, n6, n7⟩ := h1
  simp only [themedStep]
  refine mem_applyPairs_keep _ (mem_applyAsset_keep _ (mem_applyAsset_keep _
    (mem_applyAsset_keep _ (mem_applyAsset_keep _ (mem_applyPairs_keep _
      (mem_applyPairs_keep _ hp (keep_of_keys ?g1)) (keep_of_keys ?g2))
        (keep_of_keys ?g3)) (keep_of_keys ?g4)) (keep_of_keys ?g5))
          (keep_of_keys ?g6)) (keep_of_keys ?g7)
  case g1 =>
    rw [keys_style_solid_buttons]
    simpa using n1
  case g2 =>
    rw [keys_style_link_buttons]
    simpa using n2
  case g3 =>
    rw [keys_style_sizegrip]
    refine fun k hk => ?_
    rcases List.mem_cons.mp hk with rfl | hk'
    · exact n3
    · rcases List.mem_singleton.mp hk' with rfl
      rw [uuidName_append]
      exact h2 _
  case g4 =>
    rw [keys_style_checkbutton]
    refine fun k hk => ?_
    rcases List.mem_cons.mp hk with rfl | hk'
    · rw [uuidName_append]
      exact h2 _
    · rcases List.mem_singleton.mp hk' with rfl
      exact n4
  case g5 =>
    rw [keys_style_separator_h]
    refine fun k hk => ?_
    rcases List.mem_cons.mp hk with rfl | hk'
    · rw [uuidName_append]
      exact h2 _
    · rcases List.mem_singleton.mp hk' with rfl
      exact n5
  case g6 =>
    rw [keys_style_separator_v]
    refine fun k hk => ?_
    rcases List.mem_cons.mp hk with rfl | hk'
    · rw [uuidName_append]
      exact h2 _
    · rcases List.mem_singleton.mp hk' with rfl
      exact n6
  case g7 =>
    rw [keys_style_outline_buttons]
    simpa using n7

theorem mem_foldl_themedStep_keep (d : ThemeDefinition) (ls : List String)
    (acc : Settings × AssetEnv) {p : String × StyleSpec} (hp : p ∈ acc.1)
    (h1 : ∀ c ∈ ls, ∀ k ∈ themedKeys c, p.1 ≠ k)
    (h2 : ∀ x, p.1 ≠ "uuid-" ++ x) :
    p ∈ (List.foldl (themedStep d) acc ls).1 := by
  induction ls generalizing acc with
  | nil => exact hp
  | cons a rest ih =>
      rw [List.foldl_cons]
      exact ih _
        (mem_themedStep_keep d acc a hp (h1 a (List.mem_cons_self _ _)) h2)
        (fun c hc => h1 c (List.mem_cons_of_mem _ hc))

/-- The style entry of any `style_checkbutton` merge is present in the
merged settings: the element id is the uuid drawn from the incoming
asset environment. -/
theorem checkbutton_style_mem (d : ThemeDefinition) (b f i : Option String)
    (st : String) (acc : Settings × AssetEnv) :
    (st, checkbuttonStyleSpec (uuidName acc.2.fresh)) ∈
      (applyAsset (style_checkbutton d b f i st) acc).1 := by
  show _ ∈ dictUpdate acc.1 (style_checkbutton d b f i st acc.2).1
  exact mem_dictUpdate_insert (a := [_]) (b := []) (by simp)

/-- The image-based default checkbutton style entry survives into the
final settings dictionary: the `TCheckbutton` update is the penultimate
settings merge, followed only by the `.` defaults. -/
theorem checkbutton_default_mem (d : ThemeDefinition) (env : AssetEnv) :
    ∃ n : ℕ, ("TCheckbutton", checkbuttonStyleSpec (uuidName n)) ∈
      (update_ttk_theme_settings d env).1 := by
  simp only [update_ttk_theme_settings]
  refine ⟨_, mem_applyPairs_keep _ (checkbutton_style_mem d none none none
    "TCheckbutton" _) ?_⟩
  intro kv hkv
  simp only [_style_defaults_pairs, List.mem_singleton] at hkv
  subst hkv
  simp

/-! ### Pseudo-states of every settings fragment -/

theorem specOK_nil {a : List String} :
    ∀ p ∈ ([] : List (String × StyleSpec)), SpecStatesIn a p.2 := by
  intro p hp
  cases hp

theorem specOK_cons {a : List String} {k : String} {v : StyleSpec}
    {rest : List (String × StyleSpec)} (h1 : SpecStatesIn a v)
    (h2 : ∀ p ∈ rest, SpecStatesIn a p.2) :
    ∀ p ∈ (k, v) :: rest, SpecStatesIn a p.2 := by
  intro p hp
  rcases List.mem_cons.mp hp with rfl | hp'
  · exact h1
  · exact h2 p hp'

theorem specOK_append {a : List String} {A B : List (String × StyleSpec)}
    (ha : ∀ p ∈ A, SpecStatesIn a p.2) (hb : ∀ p ∈ B, SpecStatesIn a p.2) :
    ∀ p ∈ A ++ B, SpecStatesIn a p.2 := by
  intro p hp
  rcases List.mem_append.mp hp with h | h
  · exact ha p h
  · exact hb p h

theorem specOK_flatMap {a : List String} {g : String → List (String × StyleSpec)}
    {ls : List String} (h : ∀ c, ∀ p ∈ g c, SpecStatesIn a p.2) :
    ∀ p ∈ ls.flatMap g, SpecStatesIn a p.2 := by
  intro p hp
  rcases List.mem_flatMap.mp hp with ⟨c, _, hpc⟩
  exact h c p hpc

theorem specOK_of_stateMap_nil {a : List String} {sp : StyleSpec}
    (h : sp.stateMap = []) : SpecStatesIn a sp := by
  intro m hm
  rw [h] at hm
  cases hm

theorem specOK_of_stateMap {a : List String} {sp : StyleSpec}
    {m : List (String × List String)} (hm : sp.stateMap = m)
    (h : ∀ e ∈ m, ∀ spec ∈ e.2, ∀ w ∈ splitWords spec, stripNeg w ∈ a) :
    SpecStatesIn a sp := by
  intro e he
  rw [hm] at he
  exact h e he

theorem specOK_ite {a : List String} {cond : Prop} [Decidable cond]
    {A : List (String × StyleSpec)} (h : ∀ p ∈ A, SpecStatesIn a p.2) :
    ∀ p ∈ (if cond then A else []), SpecStatesIn a p.2 := by
  split
  · exact h
  · exact specOK_nil

/-- The state map shared by every radiobutton style variant. -/
def radiobuttonMap : List (String × List String) :=
  [("foreground", ["disabled", "active"]),
   ("indicatorforeground", ["disabled", "active selected !disabled"])]

/-- The state map shared by every toggle toolbutton style variant. -/
def toggleMap : List (String × List String) :=
  [("foreground", ["disabled", "hover"]), ("background", ["selected", "!selected"])]

theorem specOK_checkbuttonStyleSpec (e : String) :
    SpecStatesIn usedStates (checkbuttonStyleSpec e) := by
  intro m hm
  simp only [checkbuttonStyleSpec, List.mem_singleton] at hm
  subst hm
  decide

theorem fragOK_defaults (d : ThemeDefinition) :
    ∀ p ∈ _style_defaults_pairs d, SpecStatesIn usedStates p.2 := by
  unfold _style_defaults_pairs
  exact specOK_cons (specOK_of_stateMap rfl (by decide)) specOK_nil

theorem fragOK_combobox (d : ThemeDefinition) :
    ∀ p ∈ _style_combobox_pairs d, SpecStatesIn usedStates p.2 := by
  unfold _style_combobox_pairs
  refine specOK_append (specOK_append (specOK_ite ?_) ?_) (specOK_flatMap fun c => ?_)
  · exact specOK_cons (specOK_of_stateMap rfl (by decide)) specOK_nil
  · exact specOK_cons (specOK_of_stateMap rfl (by decide)) (specOK_cons (specOK_of_stateMap rfl (by decide)) (specOK_cons (specOK_of_stateMap rfl (by decide))
      (specOK_cons (specOK_of_stateMap rfl (by decide)) specOK_nil)))
  · exact specOK_cons (specOK_of_stateMap rfl (by decide)) specOK_nil

theorem fragOK_labelframe (d : ThemeDefinition) :
    ∀ p ∈ _style_labelframe_pairs d, SpecStatesIn usedStates p.2 := by
  unfold _style_labelframe_pairs
  refine specOK_append ?_ (specOK_flatMap fun c => ?_)
  · exact specOK_cons (specOK_of_stateMap rfl (by decide)) (specOK_cons (specOK_of_stateMap rfl (by decide)) (specOK_cons (specOK_of_stateMap rfl (by decide))
      (specOK_cons (specOK_of_stateMap rfl (by decide)) (specOK_cons (specOK_of_stateMap rfl (by decide)) specOK_nil))))
  · exact specOK_cons (specOK_of_stateMap rfl (by decide)) (specOK_cons (specOK_of_stateMap rfl (by decide)) specOK_nil)

theorem fragOK_spinbox (d : ThemeDefinition) :
    ∀ p ∈ _style_spinbox_pairs d, SpecStatesIn usedStates p.2 := by
  unfold _style_spinbox_pairs
  refine specOK_append (specOK_append (specOK_ite ?_) ?_) (specOK_flatMap fun c => ?_)
  · exact specOK_cons (specOK_of_stateMap rfl (by decide)) specOK_nil
  · exact specOK_cons (specOK_of_stateMap rfl (by decide)) (specOK_cons (specOK_of_stateMap rfl (by decide)) (specOK_cons (specOK_of_stateMap rfl (by decide))
      specOK_nil))
  · exact specOK_cons (specOK_of_stateMap rfl (by decide)) specOK_nil

theorem fragOK_scale (d : ThemeDefinition) :
    ∀ p ∈ _style_scale_pairs d, SpecStatesIn usedStates p.2 := by
  unfold _style_scale_pairs
  refine specOK_append ?_ (specOK_flatMap fun c => ?_)
  · exact specOK_cons (specOK_of_stateMap rfl (by decide)) (specOK_cons (specOK_of_stateMap rfl (by decide)) (specOK_cons (specOK_of_stateMap rfl (by decide))
      (specOK_cons (specOK_of_stateMap rfl (by decide)) (specOK_cons (specOK_of_stateMap rfl (by decide)) specOK_nil))))
  · exact specOK_cons (specOK_of_stateMap rfl (by decide)) (specOK_cons (specOK_of_stateMap rfl (by decide))
      (specOK_cons (specOK_of_stateMap_nil rfl) specOK_nil))

theorem fragOK_scrollbar (d : ThemeDefinition) :
    ∀ p ∈ _style_scrollbar_pairs d, SpecStatesIn usedStates p.2 := by
  unfold _style_scrollbar_pairs
  exact specOK_cons (specOK_of_stateMap rfl (by decide)) (specOK_cons (specOK_of_stateMap rfl (by decide)) (specOK_cons (specOK_of_stateMap rfl (by decide))
    (specOK_cons (specOK_of_stateMap rfl (by decide)) (specOK_cons (specOK_of_stateMap rfl (by decide)) (specOK_cons (specOK_of_stateMap rfl (by decide))
      (specOK_cons (specOK_of_stateMap rfl (by decide)) (specOK_cons (specOK_of_stateMap rfl (by decide)) (specOK_cons (specOK_of_stateMap rfl (by decide))
        specOK_nil))))))))

theorem fragOK_exit_button (d : ThemeDefinition) :
    ∀ p ∈ _style_exit_button_pairs d, SpecStatesIn usedStates p.2 := by
  unfold _style_exit_button_pairs
  refine specOK_append ?_ (specOK_flatMap fun c => ?_)
  · exact specOK_cons (specOK_of_stateMap rfl (by decide)) specOK_nil
  · exact specOK_cons (specOK_of_stateMap rfl (by decide)) specOK_nil

theorem fragOK_frame (d : ThemeDefinition) :
    ∀ p ∈ _style_frame_pairs d, SpecStatesIn usedStates p.2 := by
  unfold _style_frame_pairs
  refine specOK_append ?_ (specOK_flatMap fun c => ?_)
  · exact specOK_cons (specOK_of_stateMap rfl (by decide)) specOK_nil
  · exact specOK_cons (specOK_of_stateMap rfl (by decide)) specOK_nil

theorem fragOK_calendar (d : ThemeDefinition) :
    ∀ p ∈ _style_calendar_pairs d, SpecStatesIn usedStates p.2 := by
  unfold _style_calendar_pairs
  refine specOK_append ?_ (specOK_flatMap fun c => ?_)
  · exact specOK_cons (specOK_of_stateMap rfl (by decide)) (specOK_cons (specOK_of_stateMap rfl (by decide)) specOK_nil)
  · exact specOK_cons (specOK_of_stateMap rfl (by decide)) (specOK_cons (specOK_of_stateMap rfl (by decide)) specOK_nil)

theorem fragOK_entry (d : ThemeDefinition) :
    ∀ p ∈ _style_entry_pairs d, SpecStatesIn usedStates p.2 := by
  unfold _style_entry_pairs
  refine specOK_append (specOK_append (specOK_ite ?_) ?_) (specOK_flatMap fun c => ?_)
  · exact specOK_cons (specOK_of_stateMap rfl (by decide)) specOK_nil
  · exact specOK_cons (specOK_of_stateMap rfl (by decide)) specOK_nil
  · exact specOK_cons (specOK_of_stateMap rfl (by decide)) specOK_nil

theorem fragOK_label (d : ThemeDefinition) :
    ∀ p ∈ _style_label_pairs d, SpecStatesIn usedStates p.2 := by
  unfold _style_label_pairs
  refine specOK_append ?_ (specOK_flatMap fun c => ?_)
  · exact specOK_cons (specOK_of_stateMap rfl (by decide)) (specOK_cons (specOK_of_stateMap rfl (by decide)) specOK_nil)
  · exact specOK_cons (specOK_of_stateMap rfl (by decide)) (specOK_cons (specOK_of_stateMap rfl (by decide)) (specOK_cons (specOK_of_stateMap rfl (by decide))
      specOK_nil))

theorem fragOK_meter (d : ThemeDefinition) :
    ∀ p ∈ _style_meter_pairs d, SpecStatesIn usedStates p.2 := by
  unfold _style_meter_pairs
  refine specOK_append ?_ (specOK_flatMap fun c => ?_)
  · exact specOK_cons (specOK_of_stateMap rfl (by decide)) specOK_nil
  · exact specOK_cons (specOK_of_stateMap rfl (by decide)) specOK_nil

theorem fragOK_notebook (d : ThemeDefinition) :
    ∀ p ∈ _style_notebook_pairs d, SpecStatesIn usedStates p.2 := by
  unfold _style_notebook_pairs
  exact specOK_cons (specOK_of_stateMap rfl (by decide)) (specOK_cons (specOK_of_stateMap rfl (by decide)) specOK_nil)

theorem fragOK_outline_menubutton (d : ThemeDefinition) :
    ∀ p ∈ _style_outline_menubutton_pairs d, SpecStatesIn usedStates p.2 := by
  unfold _style_outline_menubutton_pairs
  refine specOK_append ?_ (specOK_flatMap fun c => ?_)
  · exact specOK_cons (specOK_of_stateMap rfl (by decide)) specOK_nil
  · exact specOK_cons (specOK_of_stateMap rfl (by decide)) specOK_nil

theorem fragOK_outline_toolbutton (d : ThemeDefinition) :
    ∀ p ∈ _style_outline_toolbutton_pairs d, SpecStatesIn usedStates p.2 := by
  unfold _style_outline_toolbutton_pairs
  refine specOK_append ?_ (specOK_flatMap fun c => ?_)
  · exact specOK_cons (specOK_of_stateMap rfl (by decide)) specOK_nil
  · exact specOK_cons (specOK_of_stateMap rfl (by decide)) specOK_nil

theorem fragOK_progressbar (d : ThemeDefinition) :
    ∀ p ∈ _style_progressbar_pairs d, SpecStatesIn usedStates p.2 := by
  unfold _style_progressbar_pairs
  refine specOK_append ?_ (specOK_flatMap fun c => ?_)
  · exact specOK_cons (specOK_of_stateMap rfl (by decide)) (specOK_cons (specOK_of_stateMap rfl (by decide)) (specOK_cons (specOK_of_stateMap rfl (by decide))
      specOK_nil))
  · exact specOK_cons (specOK_of_stateMap rfl (by decide)) (specOK_cons (specOK_of_stateMap rfl (by decide)) specOK_nil)

theorem fragOK_striped_progressbar (d : ThemeDefinition) :
    ∀ p ∈ _style_striped_progressbar_pairs d, SpecStatesIn usedStates p.2 := by
  unfold _style_striped_progressbar_pairs
  refine specOK_append ?_ (specOK_flatMap fun c => ?_)
  · exact specOK_cons (specOK_of_stateMap rfl (by decide)) (specOK_cons (specOK_of_stateMap rfl (by decide)) specOK_nil)
  · exact specOK_cons (specOK_of_stateMap_nil rfl) (specOK_cons (specOK_of_stateMap rfl (by decide)) specOK_nil)

theorem fragOK_floodgauge (d : ThemeDefinition) :
    ∀ p ∈ _style_floodgauge_pairs d, SpecStatesIn usedStates p.2 := by
  unfold _style_floodgauge_pairs
  refine specOK_append ?_ (specOK_flatMap fun c => ?_)
  · exact specOK_cons (specOK_of_stateMap rfl (by decide)) (specOK_cons (specOK_of_stateMap rfl (by decide)) (specOK_cons (specOK_of_stateMap rfl (by decide))
      (specOK_cons (specOK_of_stateMap rfl (by decide)) specOK_nil)))
  · exact specOK_cons (specOK_of_stateMap rfl (by decide)) (specOK_cons (specOK_of_stateMap rfl (by decide)) specOK_nil)

theorem fragOK_radiobutton (d : ThemeDefinition) :
    ∀ p ∈ _style_radiobutton_pairs d, SpecStatesIn usedStates p.2 := by
  unfold _style_radiobutton_pairs
  refine specOK_append ?_ (specOK_flatMap fun c => ?_)
  · exact specOK_cons (specOK_of_stateMap_nil rfl)
      (specOK_cons (specOK_of_stateMap (m := radiobuttonMap) rfl (by decide)) specOK_nil)
  · exact specOK_cons (specOK_of_stateMap_nil rfl)
      (specOK_cons (specOK_of_stateMap (m := radiobuttonMap) rfl (by decide)) specOK_nil)

theorem fragOK_solid_menubutton (d : ThemeDefinition) :
    ∀ p ∈ _style_solid_menubutton_pairs d, SpecStatesIn usedStates p.2 := by
  unfold _style_solid_menubutton_pairs
  refine specOK_append ?_ (specOK_flatMap fun c => ?_)
  · exact specOK_cons (specOK_of_stateMap rfl (by decide)) specOK_nil
  · exact specOK_cons (specOK_of_stateMap rfl (by decide)) specOK_nil

theorem fragOK_solid_toolbutton (d : ThemeDefinition) :
    ∀ p ∈ _style_solid_toolbutton_pairs d, SpecStatesIn usedStates p.2 := by
  unfold _style_solid_toolbutton_pairs
  refine specOK_append ?_ (specOK_flatMap fun c => ?_)
  · exact specOK_cons (specOK_of_stateMap rfl (by decide)) specOK_nil
  · exact specOK_cons (specOK_of_stateMap rfl (by decide)) specOK_nil

theorem fragOK_treeview (d : ThemeDefinition) :
    ∀ p ∈ _style_treeview_pairs d, SpecStatesIn usedStates p.2 := by
  unfold _style_treeview_pairs
  refine specOK_append ?_ (specOK_flatMap fun c => ?_)
  · exact specOK_cons (specOK_of_stateMap rfl (by decide)) (specOK_cons (specOK_of_stateMap rfl (by decide)) (specOK_cons (specOK_of_stateMap rfl (by decide))
      specOK_nil))
  · exact specOK_cons (specOK_of_stateMap rfl (by decide)) specOK_nil

theorem fragOK_panedwindow (d : ThemeDefinition) :
    ∀ p ∈ _style_panedwindow_pairs d, SpecStatesIn usedStates p.2 := by
  unfold _style_panedwindow_pairs
  exact specOK_cons (specOK_of_stateMap rfl (by decide)) (specOK_cons (specOK_of_stateMap rfl (by decide)) specOK_nil)

theorem fragOK_roundtoggle (d : ThemeDefinition) :
    ∀ p ∈ _style_roundtoggle_toolbutton_pairs d, SpecStatesIn usedStates p.2 := by
  unfold _style_roundtoggle_toolbutton_pairs
  refine specOK_append ?_ (specOK_flatMap fun c => ?_)
  · exact specOK_cons (specOK_of_stateMap_nil rfl)
      (specOK_cons (specOK_of_stateMap (m := toggleMap) rfl (by decide)) specOK_nil)
  · exact specOK_cons (specOK_of_stateMap_nil rfl)
      (specOK_cons (specOK_of_stateMap (m := toggleMap) rfl (by decide)) specOK_nil)

theorem fragOK_squaretoggle (d : ThemeDefinition) :
    ∀ p ∈ _style_squaretoggle_toolbutton_pairs d, SpecStatesIn usedStates p.2 := by
  unfold _style_squaretoggle_toolbutton_pairs
  refine specOK_append ?_ (specOK_flatMap fun c => ?_)
  · exact specOK_cons (specOK_of_stateMap_nil rfl)
      (specOK_cons (specOK_of_stateMap (m := toggleMap) rfl (by decide)) specOK_nil)
  · exact specOK_cons (specOK_of_stateMap_nil rfl)
      (specOK_cons (specOK_of_stateMap (m := toggleMap) rfl (by decide)) specOK_nil)

theorem fragOK_solid_buttons (d : ThemeDefinition) (bg : Option String)
    (st : String) :
    ∀ p ∈ style_solid_buttons d bg st, SpecStatesIn usedStates p.2 := by
  unfold style_solid_buttons
  exact specOK_cons (specOK_of_stateMap rfl (by decide)) specOK_nil

theorem fragOK_outline_buttons (d : ThemeDefinition) (fg : Option String)
    (st : String) :
    ∀ p ∈ style_outline_buttons d fg st, SpecStatesIn usedStates p.2 := by
  unfold style_outline_buttons
  exact specOK_cons (specOK_of_stateMap rfl (by decide)) specOK_nil

theorem fragOK_link_buttons (d : ThemeDefinition) (fg : Option String)
    (st : String) :
    ∀ p ∈ style_link_buttons d fg st, SpecStatesIn usedStates p.2 := by
  unfold style_link_buttons
  exact specOK_cons (specOK_of_stateMap rfl (by decide)) specOK_nil

theorem fragOK_sizegrip (d : ThemeDefinition) (bg fg : Option String)
    (st : String) (env : AssetEnv) :
    ∀ p ∈ (style_sizegrip d bg fg st env).1, SpecStatesIn usedStates p.2 := by
  show ∀ p ∈ ([_, _] : List (String × StyleSpec)), SpecStatesIn usedStates p.2
  exact specOK_cons (specOK_of_stateMap_nil rfl)
    (specOK_cons (specOK_of_stateMap_nil rfl) specOK_nil)

theorem fragOK_checkbutton (d : ThemeDefinition) (b f i : Option String)
    (st : String) (env : AssetEnv) :
    ∀ p ∈ (style_checkbutton d b f i st env).1, SpecStatesIn usedStates p.2 := by
  show ∀ p ∈ ([_, _] : List (String × StyleSpec)), SpecStatesIn usedStates p.2
  exact specOK_cons (specOK_of_stateMap_nil rfl)
    (specOK_cons (specOK_checkbuttonStyleSpec _) specOK_nil)

theorem fragOK_separator (d : ThemeDefinition) (bg : Option String)
    (orient st : String) (env : AssetEnv) :
    ∀ p ∈ (style_separator d bg orient st env).1, SpecStatesIn usedStates p.2 := by
  show ∀ p ∈ (if strToLower orient = "horizontal" then _ else
      (_ : List (String × StyleSpec))), SpecStatesIn usedStates p.2
  split
  · exact specOK_cons (specOK_of_stateMap_nil rfl)
      (specOK_cons (specOK_of_stateMap_nil rfl) specOK_nil)
  · exact specOK_cons (specOK_of_stateMap_nil rfl)
      (specOK_cons (specOK_of_stateMap_nil rfl) specOK_nil)

/-! ### The pseudo-state invariant across theme creation -/

theorem mapStates_applyPairs {a : List String} {acc : Settings × AssetEnv}
    {ps : List (String × StyleSpec)} (h : MapStatesIn a acc.1)
    (hp : ∀ p ∈ ps, SpecStatesIn a p.2) : MapStatesIn a (applyPairs ps acc).1 :=
  mapStatesIn_dictUpdate h hp

theorem mapStates_applyAsset {a : List String} {acc : Settings × AssetEnv}
    {f : AssetEnv → List (String × StyleSpec) × AssetEnv} (h : MapStatesIn a acc.1)
    (hf : ∀ env, ∀ p ∈ (f env).1, SpecStatesIn a p.2) :
    MapStatesIn a (applyAsset f acc).1 :=
  mapStatesIn_dictUpdate h (hf acc.2)

theorem mapStates_themedStep {d : ThemeDefinition} {acc : Settings × AssetEnv}
    {c : String} (h : MapStatesIn usedStates acc.1) :
    MapStatesIn usedStates (themedStep d acc c).1 := by
  simp only [themedStep]
  exact mapStates_applyPairs (mapStates_applyAsset (mapStates_applyAsset
    (mapStates_applyAsset (mapStates_applyAsset (mapStates_applyPairs
      (mapStates_applyPairs h (fragOK_solid_buttons d _ _))
        (fragOK_link_buttons d _ _)) (fun env => fragOK_sizegrip d _ _ _ env))
          (fun env => fragOK_checkbutton d _ _ _ _ env))
            (fun env => fragOK_separator d _ _ _ env))
              (fun env => fragOK_separator d _ _ _ env))
                (fragOK_outline_buttons d _ _)

theorem mapStates_foldl {d : ThemeDefinition} (ls : List String)
    {acc : Settings × AssetEnv} (h : MapStatesIn usedStates acc.1) :
    MapStatesIn usedStates (List.foldl (themedStep d) acc ls).1 := by
  induction ls generalizing acc with
  | nil => exact h
  | cons a rest ih =>
      rw [List.foldl_cons]
      exact ih (mapStates_themedStep h)

/-- Every style map merged by `update_ttk_theme_settings` keys its
alternate values only on the six pseudo-states of `usedStates`. -/
theorem mapStates_pipeline (d : ThemeDefinition) (env : AssetEnv) :
    MapStatesIn usedStates (update_ttk_theme_settings d env).1 := by
  simp only [update_ttk_theme_settings]
  refine mapStates_applyPairs (mapStates_applyAsset (mapStates_applyAsset
    (mapStates_applyAsset (mapStates_applyAsset (mapStates_applyPairs
      (mapStates_applyPairs (mapStates_applyPairs (mapStates_foldl _
        (mapStates_applyPairs (mapStates_applyPairs (mapStates_applyPairs
          (mapStates_applyPairs (mapStates_applyPairs (mapStates_applyPairs
            (mapStates_applyPairs (mapStates_applyPairs (mapStates_applyPairs
              (mapStates_applyPairs (mapStates_applyPairs (mapStates_applyPairs
                (mapStates_applyPairs (mapStates_applyPairs (mapStates_applyPairs
                  (mapStates_applyPairs (mapStates_applyPairs (mapStates_applyPairs
                    (mapStates_applyPairs (mapStates_applyPairs (mapStates_applyPairs
                      (mapStates_applyPairs (mapStates_applyPairs (mapStates_applyPairs
                        ?base (fragOK_labelframe d)) (fragOK_spinbox d))
                        (fragOK_scale d)) (fragOK_scrollbar d)) (fragOK_combobox d))
                        (fragOK_exit_button d)) (fragOK_frame d)) (fragOK_calendar d))
                        (fragOK_entry d)) (fragOK_label d)) (fragOK_meter d))
                        (fragOK_notebook d)) (fragOK_outline_menubutton d))
                        (fragOK_outline_toolbutton d)) (fragOK_progressbar d))
                        (fragOK_striped_progressbar d)) (fragOK_floodgauge d))
                        (fragOK_radiobutton d)) (fragOK_solid_menubutton d))
                        (fragOK_solid_toolbutton d)) (fragOK_treeview d))
                        (fragOK_panedwindow d)) (fragOK_roundtoggle d))
                        (fragOK_squaretoggle d)))
        (fragOK_solid_buttons d _ _)) (fragOK_outline_buttons d _ _))
        (fragOK_link_buttons d _ _)) (fun e => fragOK_sizegrip d _ _ _ e))
        (fun e => fragOK_separator d _ _ _ e)) (fun e => fragOK_separator d _ _ _ e))
        (fun e => fragOK_checkbutton d _ _ _ _ e)) (fragOK_defaults d)
  case base =>
    intro p hp
    cases hp

end StylerTTK

/-! ### Concrete sample data for witnesses and counterexamples -/

/-- Colors of the `litera` standard theme, as a concrete witness
theme. -/
def sampleColors : ThemeColors :=
  ⟨"#4582ec", "#adb5bd", "#02b875", "#17a2b8", "#f0ad4e", "#d9534f",
   "#ffffff", "#343a40", "#4582ec", "#ffffff", "#ced4da", "#495057", "#e9ecef"⟩

/-- A concrete light theme definition. -/
def sampleTheme : ThemeDefinition :=
  ⟨"litera", "light", "Helvetica 10", sampleColors⟩

/-- A concrete core `Style` state whose theme is loaded and already
created in the toolkit. -/
def exCoreState : CoreStyle.StyleState :=
  { theme := some sampleTheme
    themes := ["litera", "clam"]
    theme_definitions := [("litera", sampleTheme)]
    theme_objects := [("litera", sampleTheme)]
    tkThemes := ["clam", "litera"]
    current := "litera"
    env := ⟨[], 4⟩ }

/-- A concrete second-generation `Style` state. -/
def exPkgState : PkgStyle.StyleState :=
  { theme := some sampleTheme
    theme_names := ["litera"]
    theme_definitions := [("litera", sampleTheme)]
    theme_objects := ["litera"]
    tkThemes := ["clam", "litera"]
    current := "litera" }

/-- A concrete module-level `Style` state. -/
def exRootState : RootStyle.StyleState :=
  { theme := some sampleTheme
    current_theme := some sampleTheme
    themes := ["litera", "clam"]
    theme_definitions := [("litera", sampleTheme)]
    theme_objects := ["litera"]
    tkThemes := ["clam", "litera"]
    current := "litera" }

/-! ### The verified claims -/

set_option maxRecDepth 4000 in
/-- C3: every generated theme is produced by composing the base
platform theme with overrides: `StylerTTK.create_theme` first
accumulates all widget-style overrides into the single flat settings
dictionary built by `update_ttk_theme_settings` (successive
`dict.update` merges) and then registers the theme through the
toolkit's `theme_create` call with parent theme "clam" and exactly that
settings dictionary. -/
theorem create_theme_composes_then_registers (d : ThemeDefinition)
    (env : AssetEnv) :
    (StylerTTK.create_theme d env).2.2.name = d.name ∧
    (StylerTTK.create_theme d env).2.2.parent = "clam" ∧
    (StylerTTK.create_theme d env).2.2.settings =
      (StylerTTK.update_ttk_theme_settings d env).1 ∧
    (StylerTTK.create_theme d env).1 =
      (StylerTTK.update_ttk_theme_settings d env).1 := by
  refine ⟨?_, ?_, ?_, ?_⟩ <;> simp only [StylerTTK.create_theme]

/-- C9: `theme_use(None)` (core/style.py 59-87 and style/style.py
143-179) returns the name of the toolkit's current theme and creates or
switches nothing, but it is not side-effect free: the call first
reassigns the `theme` attribute from the definitions lookup, so a
`None` argument sets the theme attribute to `None` while every other
piece of styling state is unchanged. -/
theorem theme_use_none_query (s : CoreStyle.StyleState)
    (s2 : PkgStyle.StyleState) :
    CoreStyle.theme_use s none =
      ({ s with theme := none }, .currentName s.current, false) ∧
    PkgStyle.theme_use s2 none =
      ({ s2 with theme := none }, .currentName s2.current, false) :=
  ⟨rfl, rfl⟩

/-- C10: `Style.style_is_registered` (style.py 85-91) returns the
boolean membership of the style in the theme's registered-style set
only when that set exists and is non-empty; for a theme with no
registered styles it returns `None` rather than `False`, so the result
is not always a boolean. -/
theorem style_is_registered_spec :
    (∀ (reg : List (String × List String)) (theme style : String)
        (styles : List String), reg.lookup theme = some styles → styles ≠ [] →
      RootStyle.style_is_registered reg theme style =
        some (styles.contains style)) ∧
    (∀ (reg : List (String × List String)) (theme style : String),
        reg.lookup theme = none ∨ reg.lookup theme = some [] →
      RootStyle.style_is_registered reg theme style = none) := by
  constructor
  · intro reg theme style styles hl hne
    unfold RootStyle.style_is_registered
    rw [hl]
    simp [hne]
  · intro reg theme style hl
    unfold RootStyle.style_is_registered
    rcases hl with h | h <;> simp [h]

/-- Witness for C10 at a concrete registry. -/
theorem style_is_registered_spec_witness :
    RootStyle.style_is_registered [("litera", ["TButton"])] "litera" "TButton" =
      some true ∧
    RootStyle.style_is_registered [("litera", ["TButton"])] "darkly" "TButton" =
      none := by
  constructor
  · have h := style_is_registered_spec.1 [("litera", ["TButton"])] "litera"
      "TButton" ["TButton"] (by rfl) (by simp)
    simpa using h
  · exact style_is_registered_spec.2 [("litera", ["TButton"])] "darkly" "TButton"
      (Or.inl (by rfl))

/-- C4: the striped progressbar image generator computes the secondary
stripe color from the primary color by an HSV adjustment whose value
delta is selected from the primary color's brightness (the HSV value
component): delta 0.3 below brightness 0.4, delta 0 above 0.8 and delta
0.1 otherwise, always with saturation delta -0.2; the asset is a
100x100 image with two polygon stripes resized to 22x22. -/
theorem striped_image_delta_and_geometry (d : ThemeDefinition) (c : String) :
    StylerTTK._create_striped_progressbar_image d c =
      [(c ++ "_striped_hpbar",
        { mode := "RGBA"
          canvas := (100, 100)
          size := (22, 22)
          background := some (ThemeColors.update_hsv (d.colors.get c) 0 (-(2/10))
            (if (rgb_to_hsv (ThemeColors.hex_to_rgb (d.colors.get c)).1
                  (ThemeColors.hex_to_rgb (d.colors.get c)).2.1
                  (ThemeColors.hex_to_rgb (d.colors.get c)).2.2).2.2 < 4/10
             then 3/10
             else if (rgb_to_hsv (ThemeColors.hex_to_rgb (d.colors.get c)).1
                  (ThemeColors.hex_to_rgb (d.colors.get c)).2.1
                  (ThemeColors.hex_to_rgb (d.colors.get c)).2.2).2.2 > 8/10
             then 0
             else 1/10))
          ops := [.polygon [(0, 0), (48, 0), (100, 52), (100, 100), (100, 100)]
                    (d.colors.get c),
                  .polygon [(0, 52), (48, 100), (0, 100)] (d.colors.get c)]
          rotated := false })] :=
  rfl

/-- C8 counterexample: calling `theme_use` with an unregistered name
does not leave the styling state as it was before the call; the
concrete state's theme attribute changes (it is overwritten with the
failed definitions lookup, `None`). -/
theorem theme_use_invalid_changes_state :
    (CoreStyle.theme_use exCoreState (some "missing")).1 ≠ exCoreState := by
  intro h
  have h2 := congrArg CoreStyle.StyleState.theme h
  rw [show (CoreStyle.theme_use exCoreState (some "missing")).1.theme = none
    from rfl] at h2
  simp [exCoreState] at h2

/-- C8 (amended): for every unregistered theme name, `theme_use`
prints a diagnostic and returns `None` without raising, without calling
`theme_create` and without switching the toolkit's current theme,
leaving all styling state unchanged except the `theme` attribute (and,
in style.py, the `current_theme` class attribute), which is reassigned
to the definitions lookup of the name; this holds in all three
implementations (core/style.py, style/style.py, style.py). -/
theorem theme_use_invalid_spec (n : String) (hne : n ≠ "")
    (s : CoreStyle.StyleState) (h : n ∉ s.themes)
    (s2 : PkgStyle.StyleState) (h2 : n ∉ s2.theme_names)
    (s3 : RootStyle.StyleState) (h3 : n ∉ s3.themes) :
    CoreStyle.theme_use s (some n) =
      ({ s with theme := s.theme_definitions.lookup n }, .invalid, true) ∧
    PkgStyle.theme_use s2 (some n) =
      ({ s2 with theme := s2.theme_definitions.lookup n }, .invalid, true) ∧
    RootStyle.theme_use s3 (some n) =
      ({ s3 with
          theme := s3.theme_definitions.lookup n
          current_theme := s3.theme_definitions.lookup n }, .invalid, true) := by
  refine ⟨?_, ?_, ?_⟩
  · simp [CoreStyle.theme_use, falsyName, hne, h]
  · simp [PkgStyle.theme_use, falsyName, hne, h2]
  · simp [RootStyle.theme_use, falsyName, hne, h3]

/-- Witness for C8 (amended) at concrete states and the name
"missing". -/
theorem theme_use_invalid_spec_witness :
    CoreStyle.theme_use exCoreState (some "missing") =
      ({ exCoreState with
          theme := exCoreState.theme_definitions.lookup "missing" },
        .invalid, true) ∧
    PkgStyle.theme_use exPkgState (some "missing") =
      ({ exPkgState with
          theme := exPkgState.theme_definitions.lookup "missing" },
        .invalid, true) ∧
    RootStyle.theme_use exRootState (some "missing") =
      ({ exRootState with
          theme := exRootState.theme_definitions.lookup "missing"
          current_theme := exRootState.theme_definitions.lookup "missing" },
        .invalid, true) :=
  theme_use_invalid_spec "missing" (by decide) exCoreState (by decide)
    exPkgState (by decide) exRootState (by decide)

/-- C1 counterexample: two identical asset-generation requests do not
reuse the stored asset; the second `style_separator` call with the same
color and geometry parameters stores two more bitmaps in the asset
store and registers its element under fresh identities. -/
theorem separator_asset_not_reused :
    (StylerTTK.style_separator sampleTheme (some "primary") "horizontal"
        "primary.Horizontal.TSeparator"
        (StylerTTK.style_separator sampleTheme (some "primary") "horizontal"
          "primary.Horizontal.TSeparator" ⟨[], 0⟩).2).2.images ≠
      (StylerTTK.style_separator sampleTheme (some "primary") "horizontal"
        "primary.Horizontal.TSeparator" ⟨[], 0⟩).2.images ∧
    keysOf (StylerTTK.style_separator sampleTheme (some "primary") "horizontal"
        "primary.Horizontal.TSeparator"
        (StylerTTK.style_separator sampleTheme (some "primary") "horizontal"
          "primary.Horizontal.TSeparator" ⟨[], 0⟩).2).1 ≠
      keysOf (StylerTTK.style_separator sampleTheme (some "primary") "horizontal"
        "primary.Horizontal.TSeparator" ⟨[], 0⟩).1 := by
  constructor <;> decide

/-- C1 (amended): `Style.theme_use` does reuse the stored theme object
for a theme name that has already been created (no new `StylerTTK` is
built, the toolkit theme list and the asset store are untouched), but
the asset-producing style methods regenerate on every call: each
`style_separator` request consumes two fresh uuid identities and stores
two new bitmaps in `theme_images`, whatever its parameters (identical
ones included), so the store only ever grows. -/
theorem theme_reuse_and_fresh_assets (s : CoreStyle.StyleState) (n : String)
    (h0 : falsyName (some n) = false) (h1 : n ∈ s.themes)
    (h2 : n ∈ s.tkThemes)
    (h3 : (s.theme_objects.any fun p => p.1 = n) = true)
    (theme : ThemeDefinition) (bg : Option String) (orient st : String)
    (env : AssetEnv) :
    ((CoreStyle.theme_use s (some n)).1.theme_objects = s.theme_objects ∧
     (CoreStyle.theme_use s (some n)).1.tkThemes = s.tkThemes ∧
     (CoreStyle.theme_use s (some n)).1.env = s.env ∧
     (CoreStyle.theme_use s (some n)).2 = (.applied, false)) ∧
    ((StylerTTK.style_separator theme bg orient st env).2.images.length =
        env.images.length + 2 ∧
     (StylerTTK.style_separator theme bg orient st env).2.fresh = env.fresh + 2) ∧
    ((StylerTTK.style_checkbutton theme bg bg bg st env).2.images.length =
        env.images.length + 3 ∧
     (StylerTTK.style_checkbutton theme bg bg bg st env).2.fresh = env.fresh + 1) ∧
    ((StylerTTK.style_sizegrip theme bg bg st env).2.images.length =
        env.images.length + 1 ∧
     (StylerTTK.style_sizegrip theme bg bg st env).2.fresh = env.fresh + 1) := by
  refine ⟨?_, ⟨?_, rfl⟩, ⟨?_, rfl⟩, ⟨?_, rfl⟩⟩
  · simp [CoreStyle.theme_use, h0, h1, h2, h3]
  · simp [StylerTTK.style_separator]
  · simp [StylerTTK.style_checkbutton, StylerTTK.style_checkbutton_images]
  · simp [StylerTTK.style_sizegrip]

/-- Witness for C1 (amended) at a concrete already-created theme state
and concrete separator arguments. -/
theorem theme_reuse_and_fresh_assets_witness :
    ((CoreStyle.theme_use exCoreState (some "litera")).1.theme_objects =
        exCoreState.theme_objects ∧
     (CoreStyle.theme_use exCoreState (some "litera")).1.tkThemes =
        exCoreState.tkThemes ∧
     (CoreStyle.theme_use exCoreState (some "litera")).1.env = exCoreState.env ∧
     (CoreStyle.theme_use exCoreState (some "litera")).2 = (.applied, false)) ∧
    ((StylerTTK.style_separator sampleTheme (some "primary") "horizontal"
        "primary.Horizontal.TSeparator" ⟨[], 0⟩).2.images.length =
        ([] : List (String × Img)).length + 2 ∧
     (StylerTTK.style_separator sampleTheme (some "primary") "horizontal"
        "primary.Horizontal.TSeparator" ⟨[], 0⟩).2.fresh = 0 + 2) ∧
    ((StylerTTK.style_checkbutton sampleTheme (some "primary") (some "primary")
        (some "primary") "primary.Horizontal.TSeparator" ⟨[], 0⟩).2.images.length =
        ([] : List (String × Img)).length + 3 ∧
     (StylerTTK.style_checkbutton sampleTheme (some "primary") (some "primary")
        (some "primary") "primary.Horizontal.TSeparator" ⟨[], 0⟩).2.fresh = 0 + 1) ∧
    ((StylerTTK.style_sizegrip sampleTheme (some "primary") (some "primary")
        "primary.Horizontal.TSeparator" ⟨[], 0⟩).2.images.length =
        ([] : List (String × Img)).length + 1 ∧
     (StylerTTK.style_sizegrip sampleTheme (some "primary") (some "primary")
        "primary.Horizontal.TSeparator" ⟨[], 0⟩).2.fresh = 0 + 1) :=
  theme_reuse_and_fresh_assets exCoreState "litera" (by decide) (by decide)
    (by decide) (by decide) sampleTheme (some "primary") "horizontal"
    "primary.Horizontal.TSeparator" ⟨[], 0⟩

/-- C6: every procedurally generated indicator asset is a small
fixed-size bitmap substituted for the widget's default rendering
element: for every color label the round toggle images are drawn on a
large 226x130 canvas and resized to 24x15; radiobutton and checkbutton
indicator images are drawn at 134x134 and resized to 14x14; and each
set (on, off, disabled) is wired as the indicator element of the style
created for that color, whose layout references that indicator element
in place of the default one. -/
theorem indicator_assets_sizes_and_substitution (d : ThemeDefinition)
    (c : String) (hc : c ∈ ThemeColors.labels) :
    (∀ p ∈ StylerTTK._create_roundtoggle_image d c,
        p.2.canvas = (226, 130) ∧ p.2.size = (24, 15)) ∧
    (∀ p ∈ StylerTTK._create_radiobutton_images d c,
        p.2.canvas = (134, 134) ∧ p.2.size = (14, 14)) ∧
    (∀ ic eid, ∀ p ∈ StylerTTK.style_checkbutton_images d ic eid,
        p.2.canvas = (134, 134) ∧ p.2.size = (14, 14)) ∧
    (∃ sp, (c ++ ".Roundtoggle.Toolbutton.indicator", sp) ∈
        StylerTTK._style_roundtoggle_toolbutton_pairs d ∧
      sp.create = some (.image (c ++ "_roundtoggle_on")
        [("disabled", c ++ "_roundtoggle_disabled"),
         ("!selected", c ++ "_roundtoggle_off")])) ∧
    (∃ sp, (c ++ ".Roundtoggle.Toolbutton", sp) ∈
        StylerTTK._style_roundtoggle_toolbutton_pairs d ∧
      (c ++ ".Roundtoggle.Toolbutton.indicator") ∈ layoutRefs sp.layout) ∧
    (∃ sp, (c ++ ".Radiobutton.indicator", sp) ∈
        StylerTTK._style_radiobutton_pairs d ∧
      sp.create = some (.image (c ++ "_radio_on")
        [("disabled", c ++ "_radio_disabled"), ("!selected", c ++ "_radio_off")])) ∧
    (∃ sp, (c ++ ".TRadiobutton", sp) ∈ StylerTTK._style_radiobutton_pairs d ∧
      (c ++ ".Radiobutton.indicator") ∈ layoutRefs sp.layout) := by
  refine ⟨?_, ?_, ?_, ?_, ?_, ?_, ?_⟩
  · intro p hp
    simp only [StylerTTK._create_roundtoggle_image, List.mem_cons,
      List.not_mem_nil, or_false] at hp
    rcases hp with rfl | rfl | rfl <;> exact ⟨rfl, rfl⟩
  · intro p hp
    by_cases hl : d.themeType = "light" <;>
      simp only [StylerTTK._create_radiobutton_images, hl, if_true, if_false,
        List.mem_cons, List.not_mem_nil, or_false, reduceIte] at hp <;>
      (rcases hp with rfl | rfl | rfl <;> exact ⟨rfl, rfl⟩)
  · intro ic eid p hp
    simp only [StylerTTK.style_checkbutton_images, List.mem_cons,
      List.not_mem_nil, or_false] at hp
    rcases hp with rfl | rfl | rfl <;> exact ⟨rfl, rfl⟩
  · exact ⟨{ create := some (.image (c ++ "_roundtoggle_on")
        [("disabled", c ++ "_roundtoggle_disabled"),
         ("!selected", c ++ "_roundtoggle_off")]) },
      List.mem_append_right _
        (List.mem_flatMap.mpr ⟨c, hc, List.mem_cons_self _ _⟩), rfl⟩
  · refine ⟨_, List.mem_append_right _ (List.mem_flatMap.mpr
      ⟨c, hc, List.mem_cons_of_mem _ (List.mem_cons_self _ _)⟩), ?_⟩
    simp [layoutRefs]
  · exact ⟨{ create := some (.image (c ++ "_radio_on")
        [("disabled", c ++ "_radio_disabled"), ("!selected", c ++ "_radio_off")]) },
      List.mem_append_right _
        (List.mem_flatMap.mpr ⟨c, hc, List.mem_cons_self _ _⟩), rfl⟩
  · refine ⟨_, List.mem_append_right _ (List.mem_flatMap.mpr
      ⟨c, hc, List.mem_cons_of_mem _ (List.mem_cons_self _ _)⟩), ?_⟩
    simp [layoutRefs]

/-- Witness for C6 at the sample theme and the color label
"primary". -/
theorem indicator_assets_sizes_and_substitution_witness :
    (∀ p ∈ StylerTTK._create_roundtoggle_image sampleTheme "primary",
        p.2.canvas = (226, 130) ∧ p.2.size = (24, 15)) ∧
    (∀ p ∈ StylerTTK._create_radiobutton_images sampleTheme "primary",
        p.2.canvas = (134, 134) ∧ p.2.size = (14, 14)) ∧
    (∀ ic eid, ∀ p ∈ StylerTTK.style_checkbutton_images sampleTheme ic eid,
        p.2.canvas = (134, 134) ∧ p.2.size = (14, 14)) ∧
    (∃ sp, ("primary" ++ ".Roundtoggle.Toolbutton.indicator", sp) ∈
        StylerTTK._style_roundtoggle_toolbutton_pairs sampleTheme ∧
      sp.create = some (.image ("primary" ++ "_roundtoggle_on")
        [("disabled", "primary" ++ "_roundtoggle_disabled"),
         ("!selected", "primary" ++ "_roundtoggle_off")])) ∧
    (∃ sp, ("primary" ++ ".Roundtoggle.Toolbutton", sp) ∈
        StylerTTK._style_roundtoggle_toolbutton_pairs sampleTheme ∧
      ("primary" ++ ".Roundtoggle.Toolbutton.indicator") ∈ layoutRefs sp.layout) ∧
    (∃ sp, ("primary" ++ ".Radiobutton.indicator", sp) ∈
        StylerTTK._style_radiobutton_pairs sampleTheme ∧
      sp.create = some (.image ("primary" ++ "_radio_on")
        [("disabled", "primary" ++ "_radio_disabled"),
         ("!selected", "primary" ++ "_radio_off")])) ∧
    (∃ sp, ("primary" ++ ".TRadiobutton", sp) ∈
        StylerTTK._style_radiobutton_pairs sampleTheme ∧
      ("primary" ++ ".Radiobutton.indicator") ∈ layoutRefs sp.layout) :=
  indicator_assets_sizes_and_substitution sampleTheme "primary" (by decide)

/-- C7: generated assets are wired consistently into the element and
layout graph: each image-based style fragment produced with a fresh
element identifier (separator in both orientations, checkbutton,
sizegrip) contains the element-create entry registering the image under
that identifier together with a layout entry for the requested style
that references exactly that identifier, and contains no other
element-create entry, so no image element is registered without being
reachable from the style's layout tree. -/
theorem image_elements_wired_into_layouts (theme : ThemeDefinition)
    (bg fg ic : Option String) (st : String) (env : AssetEnv) :
    ((∃ sp, (uuidName env.fresh ++ ".Horizontal.Separator.separator", sp) ∈
        (StylerTTK.style_separator theme bg "horizontal" st env).1 ∧
        sp.create = some (.image (uuidName env.fresh) [])) ∧
     (∃ sp, (st, sp) ∈ (StylerTTK.style_separator theme bg "horizontal" st env).1 ∧
        layoutRefs sp.layout =
          [uuidName env.fresh ++ ".Horizontal.Separator.separator"]) ∧
     (∀ p ∈ (StylerTTK.style_separator theme bg "horizontal" st env).1,
        p.2.create.isSome →
          p.1 = uuidName env.fresh ++ ".Horizontal.Separator.separator")) ∧
    ((∃ sp, (uuidName (env.fresh + 1) ++ ".Vertical.Separator.separator", sp) ∈
        (StylerTTK.style_separator theme bg "vertical" st env).1 ∧
        sp.create = some (.image (uuidName (env.fresh + 1)) [])) ∧
     (∃ sp, (st, sp) ∈ (StylerTTK.style_separator theme bg "vertical" st env).1 ∧
        layoutRefs sp.layout =
          [uuidName (env.fresh + 1) ++ ".Vertical.Separator.separator"]) ∧
     (∀ p ∈ (StylerTTK.style_separator theme bg "vertical" st env).1,
        p.2.create.isSome →
          p.1 = uuidName (env.fresh + 1) ++ ".Vertical.Separator.separator")) ∧
    ((∃ sp, (uuidName env.fresh ++ ".Checkbutton.indicator", sp) ∈
        (StylerTTK.style_checkbutton theme bg fg ic st env).1 ∧
        sp.create = some (.image (uuidName env.fresh ++ "_cb_on")
          [("disabled", uuidName env.fresh ++ "_cb_disabled"),
           ("!selected", uuidName env.fresh ++ "_cb_off")])) ∧
     (∃ sp, (st, sp) ∈ (StylerTTK.style_checkbutton theme bg fg ic st env).1 ∧
        (uuidName env.fresh ++ ".Checkbutton.indicator") ∈ layoutRefs sp.layout) ∧
     (∀ p ∈ (StylerTTK.style_checkbutton theme bg fg ic st env).1,
        p.2.create.isSome → p.1 = uuidName env.fresh ++ ".Checkbutton.indicator")) ∧
    ((∃ sp, (uuidName env.fresh ++ ".Sizegrip.sizegrip", sp) ∈
        (StylerTTK.style_sizegrip theme bg fg st env).1 ∧
        sp.create = some (.image (uuidName env.fresh) [])) ∧
     (∃ sp, (st, sp) ∈ (StylerTTK.style_sizegrip theme bg fg st env).1 ∧
        layoutRefs sp.layout = [uuidName env.fresh ++ ".Sizegrip.sizegrip"]) ∧
     (∀ p ∈ (StylerTTK.style_sizegrip theme bg fg st env).1,
        p.2.create.isSome → p.1 = uuidName env.fresh ++ ".Sizegrip.sizegrip")) := by
  refine ⟨⟨?_, ?_, ?_⟩, ⟨?_, ?_, ?_⟩, ⟨?_, ?_, ?_⟩, ⟨?_, ?_, ?_⟩⟩
  · rw [StylerTTK.style_separator_h_pairs]
    exact ⟨_, List.mem_cons_self _ _, rfl⟩
  · rw [StylerTTK.style_separator_h_pairs]
    exact ⟨_, List.mem_cons_of_mem _ (List.mem_cons_self _ _), by simp [layoutRefs]⟩
  · rw [StylerTTK.style_separator_h_pairs]
    intro p hp
    rcases List.mem_cons.mp hp with rfl | hp'
    · intro _
      rfl
    · rcases List.mem_cons.mp hp' with rfl | hp''
      · intro hcr
        simp at hcr
      · cases hp''
  · rw [StylerTTK.style_separator_v_pairs]
    exact ⟨_, List.mem_cons_self _ _, rfl⟩
  · rw [StylerTTK.style_separator_v_pairs]
    exact ⟨_, List.mem_cons_of_mem _ (List.mem_cons_self _ _), by simp [layoutRefs]⟩
  · rw [StylerTTK.style_separator_v_pairs]
    intro p hp
    rcases List.mem_cons.mp hp with rfl | hp'
    · intro _
      rfl
    · rcases List.mem_cons.mp hp' with rfl | hp''
      · intro hcr
        simp at hcr
      · cases hp''
  · exact ⟨_, List.mem_cons_self _ _, rfl⟩
  · refine ⟨_, List.mem_cons_of_mem _ (List.mem_cons_self _ _), ?_⟩
    simp [layoutRefs, StylerTTK.checkbuttonStyleSpec]
  · intro p hp
    rcases List.mem_cons.mp hp with rfl | hp'
    · intro _
      rfl
    · rcases List.mem_cons.mp hp' with rfl | hp''
      · intro hcr
        simp [StylerTTK.checkbuttonStyleSpec] at hcr
      · cases hp''
  · exact ⟨_, List.mem_cons_of_mem _ (List.mem_cons_self _ _), rfl⟩
  · refine ⟨_, List.mem_cons_self _ _, ?_⟩
    simp [layoutRefs]
  · intro p hp
    rcases List.mem_cons.mp hp with rfl | hp'
    · intro hcr
      simp at hcr
    · rcases List.mem_cons.mp hp' with rfl | hp''
      · intro _
        rfl
      · cases hp''

/-- C2 counterexample: not every pseudo-state used in a style map of
theme creation is one of hover, pressed, disabled, selected: the
default `TCheckbutton` style of the sample theme's settings maps its
foreground on the pseudo-state "active". -/
theorem map_states_beyond_spec_states :
    ¬ MapStatesIn specStates
      (StylerTTK.update_ttk_theme_settings sampleTheme ⟨[], 0⟩).1 := by
  intro h
  obtain ⟨n, hmem⟩ := StylerTTK.checkbutton_default_mem sampleTheme ⟨[], 0⟩
  have h2 := h _ hmem ("foreground", ["disabled", "active"])
    (by simp [StylerTTK.checkbuttonStyleSpec]) "active" (by simp)
    "active" (by decide)
  exact absurd h2 (by decide)

/-- C2 (amended): every pseudo-state name used in a style map produced
during theme creation to select an alternate style value is one of the
named interaction conditions hover, pressed, disabled, selected, focus
or active (possibly negated, as in "pressed !disabled"); the maps of
`update_ttk_theme_settings` key alternate values on no other
condition. -/
theorem map_states_within_used_states (d : ThemeDefinition) (env : AssetEnv) :
    MapStatesIn usedStates (StylerTTK.update_ttk_theme_settings d env).1 :=
  StylerTTK.mapStates_pipeline d env

/-- C5: for every color label of the theme colors, theme creation
produces the named widget-style variants for each supported widget
class: the flat settings dictionary contains the keys c.TButton,
c.Link.TButton, c.TSizegrip, c.TCheckbutton, c.Horizontal.TSeparator,
c.Vertical.TSeparator and c.Outline.TButton, in addition to the default
unprefixed styles. -/
theorem themed_style_variants_present (d : ThemeDefinition) (env : AssetEnv)
    (c : String) (hc : c ∈ ThemeColors.labels) :
    (∀ k ∈ StylerTTK.themedKeys c,
        k ∈ keysOf (StylerTTK.update_ttk_theme_settings d env).1) ∧
    (∀ k ∈ StylerTTK.defaultStyleKeys,
        k ∈ keysOf (StylerTTK.update_ttk_theme_settings d env).1) := by
  constructor
  · intro k hk
    simp only [StylerTTK.update_ttk_theme_settings]
    exact StylerTTK.keys_applyPairs_left _ (StylerTTK.keys_applyAsset_left _
      (StylerTTK.keys_applyAsset_left _ (StylerTTK.keys_applyAsset_left _
        (StylerTTK.keys_applyAsset_left _ (StylerTTK.keys_applyPairs_left _
          (StylerTTK.keys_applyPairs_left _ (StylerTTK.keys_applyPairs_left _
            (StylerTTK.foldl_themedStep_adds d _ _ hc hk))))))))
  · intro k hk
    simp only [StylerTTK.defaultStyleKeys, List.mem_cons, List.not_mem_nil,
      or_false] at hk
    simp only [StylerTTK.update_ttk_theme_settings]
    rcases hk with rfl | rfl | rfl | rfl | rfl | rfl | rfl
    · refine StylerTTK.keys_applyPairs_left _ (StylerTTK.keys_applyAsset_left _
        (StylerTTK.keys_applyAsset_left _ (StylerTTK.keys_applyAsset_left _
          (StylerTTK.keys_applyAsset_left _ (StylerTTK.keys_applyPairs_left _
            (StylerTTK.keys_applyPairs_left _ (StylerTTK.keys_applyPairs_right ?_)))))))
      simp [keysOf, StylerTTK.style_solid_buttons]
    · refine StylerTTK.keys_applyPairs_left _ (StylerTTK.keys_applyAsset_left _
        (StylerTTK.keys_applyAsset_left _ (StylerTTK.keys_applyAsset_left _
          (StylerTTK.keys_applyAsset_left _ (StylerTTK.keys_applyPairs_right ?_)))))
      simp [keysOf, StylerTTK.style_link_buttons]
    · refine StylerTTK.keys_applyPairs_left _ (StylerTTK.keys_applyAsset_left _
        (StylerTTK.keys_applyAsset_left _ (StylerTTK.keys_applyAsset_left _
          (StylerTTK.keys_applyAsset_left _ (StylerTTK.keys_applyPairs_left _
            (StylerTTK.keys_applyPairs_right ?_))))))
      simp [keysOf, StylerTTK.style_outline_buttons]
    · refine StylerTTK.keys_applyPairs_left _ (StylerTTK.keys_applyAsset_left _
        (StylerTTK.keys_applyAsset_left _ (StylerTTK.keys_applyAsset_left _
          (StylerTTK.keys_applyAsset_right ?_))))
      rw [StylerTTK.keys_style_sizegrip]
      simp
    · refine StylerTTK.keys_applyPairs_left _ (StylerTTK.keys_applyAsset_right ?_)
      rw [StylerTTK.keys_style_checkbutton]
      simp
    · refine StylerTTK.keys_applyPairs_left _ (StylerTTK.keys_applyAsset_left _
        (StylerTTK.keys_applyAsset_right ?_))
      rw [StylerTTK.keys_style_separator_h]
      simp
    · refine StylerTTK.keys_applyPairs_left _ (StylerTTK.keys_applyAsset_left _
        (StylerTTK.keys_applyAsset_left _ (StylerTTK.keys_applyAsset_right ?_)))
      rw [StylerTTK.keys_style_separator_v]
      simp

/-- Witness for C2 (amended) at the sample theme and the empty asset
store. -/
theorem map_states_within_used_states_witness :
    MapStatesIn usedStates
      (StylerTTK.update_ttk_theme_settings sampleTheme ⟨[], 0⟩).1 :=
  map_states_within_used_states sampleTheme ⟨[], 0⟩

/-- Witness for C7 at the sample theme, concrete colors and the empty
asset store. -/
theorem image_elements_wired_into_layouts_witness :
    ((∃ sp, (uuidName (0 : ℕ) ++ ".Horizontal.Separator.separator", sp) ∈
        (StylerTTK.style_separator sampleTheme (some "primary") "horizontal"
          "TSep" ⟨[], 0⟩).1 ∧
        sp.create = some (.image (uuidName (0 : ℕ)) [])) ∧
     (∃ sp, ("TSep", sp) ∈ (StylerTTK.style_separator sampleTheme (some "primary")
          "horizontal" "TSep" ⟨[], 0⟩).1 ∧
        layoutRefs sp.layout =
          [uuidName (0 : ℕ) ++ ".Horizontal.Separator.separator"]) ∧
     (∀ p ∈ (StylerTTK.style_separator sampleTheme (some "primary") "horizontal"
          "TSep" ⟨[], 0⟩).1,
        p.2.create.isSome →
          p.1 = uuidName (0 : ℕ) ++ ".Horizontal.Separator.separator")) ∧
    ((∃ sp, (uuidName ((0 : ℕ) + 1) ++ ".Vertical.Separator.separator", sp) ∈
        (StylerTTK.style_separator sampleTheme (some "primary") "vertical"
          "TSep" ⟨[], 0⟩).1 ∧
        sp.create = some (.image (uuidName ((0 : ℕ) + 1)) [])) ∧
     (∃ sp, ("TSep", sp) ∈ (StylerTTK.style_separator sampleTheme (some "primary")
          "vertical" "TSep" ⟨[], 0⟩).1 ∧
        layoutRefs sp.layout =
          [uuidName ((0 : ℕ) + 1) ++ ".Vertical.Separator.separator"]) ∧
     (∀ p ∈ (StylerTTK.style_separator sampleTheme (some "primary") "vertical"
          "TSep" ⟨[], 0⟩).1,
        p.2.create.isSome →
          p.1 = uuidName ((0 : ℕ) + 1) ++ ".Vertical.Separator.separator")) ∧
    ((∃ sp, (uuidName (0 : ℕ) ++ ".Checkbutton.indicator", sp) ∈
        (StylerTTK.style_checkbutton sampleTheme (some "primary") (some "primary")
          (some "primary") "TCb" ⟨[], 0⟩).1 ∧
        sp.create = some (.image (uuidName (0 : ℕ) ++ "_cb_on")
          [("disabled", uuidName (0 : ℕ) ++ "_cb_disabled"),
           ("!selected", uuidName (0 : ℕ) ++ "_cb_off")])) ∧
     (∃ sp, ("TCb", sp) ∈ (StylerTTK.style_checkbutton sampleTheme (some "primary")
          (some "primary") (some "primary") "TCb" ⟨[], 0⟩).1 ∧
        (uuidName (0 : ℕ) ++ ".Checkbutton.indicator") ∈ layoutRefs sp.layout) ∧
     (∀ p ∈ (StylerTTK.style_checkbutton sampleTheme (some "primary")
          (some "primary") (some "primary") "TCb" ⟨[], 0⟩).1,
        p.2.create.isSome →
          p.1 = uuidName (0 : ℕ) ++ ".Checkbutton.indicator")) ∧
    ((∃ sp, (uuidName (0 : ℕ) ++ ".Sizegrip.sizegrip", sp) ∈
        (StylerTTK.style_sizegrip sampleTheme (some "primary") (some "primary")
          "TSg" ⟨[], 0⟩).1 ∧
        sp.create = some (.image (uuidName (0 : ℕ)) [])) ∧
     (∃ sp, ("TSg", sp) ∈ (StylerTTK.style_sizegrip sampleTheme (some "primary")
          (some "primary") "TSg" ⟨[], 0⟩).1 ∧
        layoutRefs sp.layout = [uuidName (0 : ℕ) ++ ".Sizegrip.sizegrip"]) ∧
     (∀ p ∈ (StylerTTK.style_sizegrip sampleTheme (some "primary")
          (some "primary") "TSg" ⟨[], 0⟩).1,
        p.2.create.isSome → p.1 = uuidName (0 : ℕ) ++ ".Sizegrip.sizegrip")) :=
  image_elements_wired_into_layouts sampleTheme (some "primary") (some "primary")
    (some "primary") "TSep" ⟨[], 0⟩ |>.1.elim (fun _ _ => ⟨
      (image_elements_wired_into_layouts sampleTheme (some "primary")
        (some "primary") (some "primary") "TSep" ⟨[], 0⟩).1,
      (image_elements_wired_into_layouts sampleTheme (some "primary")
        (some "primary") (some "primary") "TSep" ⟨[], 0⟩).2.1,
      (image_elements_wired_into_layouts sampleTheme (some "primary")
        (some "primary") (some "primary") "TCb" ⟨[], 0⟩).2.2.1,
      (image_elements_wired_into_layouts sampleTheme (some "primary")
        (some "primary") (some "primary") "TSg" ⟨[], 0⟩).2.2.2⟩)

/-- Witness for C5 at the sample theme, the empty asset store and the
color label "primary". -/
theorem themed_style_variants_present_witness :
    (∀ k ∈ StylerTTK.themedKeys "primary",
        k ∈ keysOf (StylerTTK.update_ttk_theme_settings sampleTheme ⟨[], 0⟩).1) ∧
    (∀ k ∈ StylerTTK.defaultStyleKeys,
        k ∈ keysOf (StylerTTK.update_ttk_theme_settings sampleTheme ⟨[], 0⟩).1) :=
  themed_style_variants_present sampleTheme ⟨[], 0⟩ "primary" (by decide)

end Ttkbootstrap
